import Mathlib

/-!
Verification development for the `air-quality-milano` repository.

The repository consists of two Python scripts built on pandas:
`data/fetch_official_db.py` (fetch, normalize, persist) and `src/app.py`
(dashboard: fetch, normalize, merge, trend/anomaly analysis).

This file gives a shallow embedding of the data model (pandas dataframes as
lists of named, typed columns) and of the operations the scripts perform on
them, translated statement by statement from the source, and proves the
properties of the specification against that embedding.
-/

set_option maxHeartbeats 1000000
set_option maxRecDepth 4000

/-- A dataframe cell: missing (`NaN`/`NA`/`NaT`), a string, a number, or a
datetime value (timestamps are abstracted as rationals; none of the verified
properties inspects calendar structure). -/
inductive Cell where
  | na : Cell
  | str : String → Cell
  | num : ℚ → Cell
  | dt : ℚ → Cell
deriving DecidableEq, Repr

/-- The pandas dtype of a column, as far as the scripts observe it
(`select_dtypes(["number"])` is the only dtype-sensitive operation). -/
inductive Dtype where
  | number : Dtype
  | obj : Dtype
  | datetime : Dtype
deriving DecidableEq, Repr

/-- A named, typed column of cells. -/
structure Column where
  name : String
  dtype : Dtype
  data : List Cell
deriving DecidableEq, Repr

/-- A pandas dataframe: a row count and an ordered list of columns. -/
structure DataFrame where
  nrows : Nat
  cols : List Column
deriving DecidableEq, Repr

def DataFrame.colNames (df : DataFrame) : List String :=
  df.cols.map (fun c => c.name)

/-- `df[n]`: the first column named `n`, if any. -/
def DataFrame.getCol (df : DataFrame) (n : String) : Option Column :=
  df.cols.find? (fun c => c.name == n)

/-- `n in df.columns`. -/
def DataFrame.hasCol (df : DataFrame) (n : String) : Bool :=
  (df.getCol n).isSome

/-- The data of column `n`, or an all-missing column when `n` is absent. -/
def DataFrame.colData (df : DataFrame) (n : String) : List Cell :=
  ((df.getCol n).map (fun c => c.data)).getD (List.replicate df.nrows Cell.na)

/-- `df[n] = series`: overwrite every column named `n` in place, or append a
new column at the end when `n` is absent (pandas assignment semantics). -/
def DataFrame.setCol (df : DataFrame) (n : String) (t : Dtype) (d : List Cell) :
    DataFrame :=
  if df.hasCol n then
    { df with cols := df.cols.map (fun c => if c.name == n then ⟨n, t, d⟩ else c) }
  else
    { df with cols := df.cols ++ [⟨n, t, d⟩] }

/-- `df[n] = scalar`: broadcast a scalar over all rows. -/
def DataFrame.setScalar (df : DataFrame) (n : String) (t : Dtype) (v : Cell) :
    DataFrame :=
  df.setCol n t (List.replicate df.nrows v)

/-- `df[ns]`: column selection by name, in the order given. -/
def DataFrame.select (df : DataFrame) (ns : List String) : DataFrame :=
  { nrows := df.nrows, cols := ns.filterMap (fun n => df.getCol n) }

/-- Row `i` of the dataframe, one cell per column. -/
def DataFrame.row (df : DataFrame) (i : Nat) : List Cell :=
  df.cols.map (fun c => c.data.getD i Cell.na)

/-- Whether row `i` survives `dropna(subset=ss, how="any")`. -/
def DataFrame.keepRow (df : DataFrame) (ss : List String) (i : Nat) : Bool :=
  ss.all (fun n => !((df.colData n).getD i Cell.na == Cell.na))

/-- `df.dropna(subset=ss, how="any")`: keep exactly the rows whose cells in
every column of `ss` are present. -/
def DataFrame.dropnaAny (df : DataFrame) (ss : List String) : DataFrame :=
  let keep := (List.range df.nrows).filter (df.keepRow ss)
  { nrows := keep.length,
    cols := df.cols.map (fun c =>
      ⟨c.name, c.dtype, keep.map (fun i => c.data.getD i Cell.na)⟩) }

/-- For each name in `ns`, `if c not in df.columns: df[c] = pd.NA`. -/
def DataFrame.ensureCols (df : DataFrame) (ns : List String) : DataFrame :=
  ns.foldl (fun d c => if d.hasCol c then d else d.setScalar c Dtype.obj Cell.na) df

/-- `df.rename(columns={old: new})` (renames every matching column). -/
def DataFrame.renameCol (df : DataFrame) (old new : String) : DataFrame :=
  { df with cols := df.cols.map (fun c =>
      if c.name == old then ⟨new, c.dtype, c.data⟩ else c) }

/-- `df.empty`: true when either axis has length zero. -/
def DataFrame.isEmpty (df : DataFrame) : Bool :=
  df.nrows == 0 || df.cols.isEmpty

/-- `pd.DataFrame()`. -/
def emptyDF : DataFrame := ⟨0, []⟩

/-- Python's `str.lower()`, characterwise. -/
def strLower (s : String) : String :=
  String.mk (s.toList.map Char.toLower)

/-- `df.columns = [c.lower() for c in df.columns]`. -/
def lowerCols (df : DataFrame) : DataFrame :=
  { df with cols := df.cols.map (fun c => ⟨strLower c.name, c.dtype, c.data⟩) }

/-- Whether `pat` is a prefix of `s` (character lists). -/
def charsPref : List Char → List Char → Bool
  | [], _ => true
  | _ :: _, [] => false
  | a :: as, b :: bs => a == b && charsPref as bs

/-- Whether `pat` occurs as a contiguous substring of `s` (character lists). -/
def charsSub (pat : List Char) : List Char → Bool
  | [] => charsPref pat []
  | b :: bs => charsPref pat (b :: bs) || charsSub pat bs

/-- Python's `pat in s` on strings. -/
def containsStr (s pat : String) : Bool :=
  charsSub pat.toList s.toList

/-- Digit-list accumulator for the simplified numeric parser. -/
def parseDigitsAux : List Char → Nat → Option Nat
  | [], acc => some acc
  | c :: cs, acc =>
      if c.isDigit then parseDigitsAux cs (acc * 10 + (c.toNat - 48)) else none

/-- Simplified stand-in for pandas numeric coercion of strings: an optional
minus sign, digits, and an optional fractional part. The verified claims do
not depend on the parser's exact range. -/
def parseNum (s : String) : Option ℚ :=
  let cs := s.toList
  let core : List Char → Option ℚ := fun l =>
    match l.splitOn '.' with
    | [ip] =>
        if ip.isEmpty then none else (parseDigitsAux ip 0).map (fun v => (v : ℚ))
    | [ip, fp] =>
        if ip.isEmpty || fp.isEmpty then none
        else
          match parseDigitsAux ip 0, parseDigitsAux fp 0 with
          | some a, some b => some ((a : ℚ) + (b : ℚ) / ((10 : ℚ) ^ fp.length))
          | _, _ => none
    | _ => none
  match cs with
  | '-' :: rest => (core rest).map (fun q => -q)
  | _ => core cs

/-- `pd.to_numeric(series, errors="coerce")`, cellwise. -/
def toNumericCell : Cell → Cell
  | Cell.na => Cell.na
  | Cell.num q => Cell.num q
  | Cell.dt q => Cell.num q
  | Cell.str s => match parseNum s with
      | some q => Cell.num q
      | none => Cell.na

/-- `pd.to_datetime(series, errors="coerce")`, cellwise (calendar parsing is
abstracted through the numeric parser; no verified property inspects the
parsed value). -/
def toDatetimeCell : Cell → Cell
  | Cell.na => Cell.na
  | Cell.dt q => Cell.dt q
  | Cell.num q => Cell.dt q
  | Cell.str s => match parseNum s with
      | some q => Cell.dt q
      | none => Cell.na

/-- `series.dt.date`, cellwise (date-part extraction abstracted as identity on
valid datetimes, `NaT` otherwise). -/
def dateOfCell : Cell → Cell
  | Cell.dt q => Cell.dt q
  | _ => Cell.na

/-- `series.dt.year`, cellwise (year extraction abstracted as the floor of the
abstract timestamp; no verified property inspects the value). -/
def yearOfCell : Cell → Cell
  | Cell.dt q => Cell.num ((⌊q⌋ : ℤ) : ℚ)
  | _ => Cell.na

/-- `series.astype(str)`, cellwise. Missing values become the *string*
`"nan"`, as in pandas — in particular they are no longer missing. -/
def astypeStrCell : Cell → Cell
  | Cell.na => Cell.str "nan"
  | Cell.str s => Cell.str s
  | Cell.num q => Cell.str (toString q)
  | Cell.dt q => Cell.str (toString q)

/-- `pd.to_datetime(df[["year","month","day"]], errors="coerce")`, rowwise. -/
def mkYMD (n : Nat) (ys ms ds : List Cell) : List Cell :=
  (List.range n).map (fun i =>
    match ys.getD i Cell.na, ms.getD i Cell.na, ds.getD i Cell.na with
    | Cell.num y, Cell.num m, Cell.num d => Cell.dt (y * 10000 + m * 100 + d)
    | _, _, _ => Cell.na)

/-! ### Column-inference keyword matchers

Each predicate transcribes one candidate-scan of a normalizer, applied to an
(already lowercased) column name. -/

/-- `fetch_official_db.normalize_measurements`, line 84:
`"date" in c or "data" in c or "giorno" in c or "day" in c`. -/
def fetchDateMatch (c : String) : Bool :=
  containsStr c "date" || containsStr c "data" || containsStr c "giorno" ||
    containsStr c "day"

/-- `fetch_official_db.normalize_measurements`, line 99: membership in the
value tuple, or `"val" in c`. -/
def fetchValueMatch (c : String) : Bool :=
  c == "value" || c == "valore" || c == "concentrazione" || c == "concen" ||
    c == "concentration" || c == "concentration_mean" || containsStr c "val"

/-- `fetch_official_db.normalize_measurements`, line 111. -/
def fetchPolMatch (c : String) : Bool :=
  containsStr c "inquin" || containsStr c "param" || containsStr c "pollut" ||
    containsStr c "parameter" || c == "nome" || c == "name" || c == "indicator"

/-- `fetch_official_db.normalize_measurements`, line 118. -/
def fetchStMatch (c : String) : Bool :=
  containsStr c "staz" || containsStr c "station" || containsStr c "stazione" ||
    c == "id" || containsStr c "cod"

/-- `fetch_official_db.normalize_measurements`, line 124. -/
def fetchNameMatch (c : String) : Bool :=
  containsStr c "nome" || containsStr c "name" || containsStr c "description"

/-- `fetch_official_db.normalize_measurements`, line 143. -/
def fetchUnitMatch (c : String) : Bool :=
  containsStr c "unit" || containsStr c "unita" || containsStr c "uom"

/-- `fetch_official_db.normalize_measurements`, line 148. -/
def fetchTypeMatch (c : String) : Bool :=
  containsStr c "tipo" || containsStr c "type" || containsStr c "station_type"

/-- `app.normalize_measurements`, line 47. -/
def appDateMatch (c : String) : Bool :=
  containsStr c "date" || containsStr c "data" || containsStr c "giorno"

/-- `app.normalize_measurements`, line 48 (exact membership only). -/
def appValueMatch (c : String) : Bool :=
  c == "valore" || c == "value" || c == "concentrazione" || c == "inquinanti_aria"

/-- `app.normalize_measurements`, line 49. -/
def appPolMatch (c : String) : Bool :=
  containsStr c "inquin" || containsStr c "param" || containsStr c "indicator"

/-- `app.normalize_measurements`, line 50. -/
def appStMatch (c : String) : Bool :=
  containsStr c "staz" || containsStr c "station" || containsStr c "cod"

/-! ### The fetcher's `normalize_measurements` (fetch_official_db.py 79-162)

The function is split into its sequential stages; `fetchNormalize` is their
composition.  Every stage takes the dataframe in the state the Python code
sees at that point. -/

/-- Lines 83-96: date/datetime handling. -/
def fetchStage1 (df : DataFrame) : DataFrame :=
  match (df.colNames.filter fetchDateMatch).head? with
  | some dcol =>
      let d1 := df.setCol "datetime" Dtype.datetime
        ((df.colData dcol).map toDatetimeCell)
      d1.setCol "date" Dtype.obj ((d1.colData "datetime").map dateOfCell)
  | none =>
      if df.hasCol "year" && df.hasCol "month" && df.hasCol "day" then
        let d1 := df.setCol "datetime" Dtype.datetime
          (mkYMD df.nrows (df.colData "year") (df.colData "month") (df.colData "day"))
        d1.setCol "date" Dtype.obj ((d1.colData "datetime").map dateOfCell)
      else
        let d1 := df.setScalar "datetime" Dtype.datetime Cell.na
        d1.setScalar "date" Dtype.obj Cell.na

/-- Lines 98-108: value column (keyword match, else first numeric column,
else a missing scalar). -/
def fetchStage2 (df : DataFrame) : DataFrame :=
  match (df.colNames.filter fetchValueMatch).head? with
  | some v => df.setCol "value" Dtype.number ((df.colData v).map toNumericCell)
  | none =>
      match (df.cols.filter (fun c => c.dtype == Dtype.number)).head? with
      | some c => df.setCol "value" Dtype.number c.data
      | none => df.setScalar "value" Dtype.obj Cell.na

/-- Lines 110-115: pollutant column. -/
def fetchStage3 (df : DataFrame) : DataFrame :=
  match (df.colNames.filter fetchPolMatch).head? with
  | some p => df.setCol "pollutant" Dtype.obj ((df.colData p).map astypeStrCell)
  | none => df.setScalar "pollutant" Dtype.obj Cell.na

/-- Lines 117-122: station id column. -/
def fetchStage4 (df : DataFrame) : DataFrame :=
  match (df.colNames.filter fetchStMatch).head? with
  | some s0 => df.setCol "station_id" Dtype.obj ((df.colData s0).map astypeStrCell)
  | none => df.setScalar "station_id" Dtype.obj Cell.na

/-- Lines 124-128: station name column (`df.get("station_id", pd.NA)` always
finds the station id column set by the previous stage). -/
def fetchStage5 (df : DataFrame) : DataFrame :=
  match (df.colNames.filter fetchNameMatch).head? with
  | some nm => df.setCol "station_name" Dtype.obj ((df.colData nm).map astypeStrCell)
  | none =>
      match df.getCol "station_id" with
      | some c => df.setCol "station_name" c.dtype c.data
      | none => df.setScalar "station_name" Dtype.obj Cell.na

/-- Lines 130-140: lat/lon columns (exact-name candidates via `next`). -/
def fetchStage6 (df : DataFrame) : DataFrame :=
  let latc := df.colNames.find? (fun c => c == "lat" || c == "lat_y_4326" || c == "latitude")
  let d1 := match latc with
    | some lc => df.setCol "lat" Dtype.number ((df.colData lc).map toNumericCell)
    | none => df.setScalar "lat" Dtype.obj Cell.na
  let lonc := d1.colNames.find? (fun c => c == "lon" || c == "long_x_4326" || c == "longitude" || c == "long")
  match lonc with
  | some lc => d1.setCol "lon" Dtype.number ((d1.colData lc).map toNumericCell)
  | none => d1.setScalar "lon" Dtype.obj Cell.na

/-- Lines 142-149: unit, qc_flag and station_type columns. -/
def fetchStage7 (df : DataFrame) : DataFrame :=
  let d1 := match (df.colNames.filter fetchUnitMatch).head? with
    | some u => df.setCol "unit" Dtype.obj ((df.colData u).map astypeStrCell)
    | none => df.setScalar "unit" Dtype.obj (Cell.str "µg/m3")
  let d2 := match d1.getCol "qc_flag" with
    | some c => d1.setCol "qc_flag" c.dtype c.data
    | none => d1.setScalar "qc_flag" Dtype.number (Cell.num 0)
  match (d2.colNames.filter fetchTypeMatch).head? with
  | some t =>
      match d2.getCol t with
      | some c => d2.setCol "station_type" c.dtype c.data
      | none => d2.setScalar "station_type" Dtype.obj Cell.na
  | none => d2.setScalar "station_type" Dtype.obj Cell.na

/-- Line 155: the canonical output columns of the fetcher's normalizer. -/
def fetchCanonical : List String :=
  ["date", "datetime", "station_id", "station_name", "lat", "lon",
   "station_type", "pollutant", "unit", "value", "qc_flag"]

/-- Lines 80-149: everything before the `dropna`. -/
def fetchPreDrop (df0 : DataFrame) : DataFrame :=
  fetchStage7 (fetchStage6 (fetchStage5 (fetchStage4 (fetchStage3
    (fetchStage2 (fetchStage1 (lowerCols df0)))))))

/-- `fetch_official_db.normalize_measurements` (lines 79-162). -/
def fetchNormalize (df0 : DataFrame) : DataFrame :=
  let d := (fetchPreDrop df0).dropnaAny ["value", "pollutant", "station_id"]
  let d := d.ensureCols fetchCanonical
  let d := d.setCol "date" Dtype.obj ((d.colData "date").map astypeStrCell)
  d.select fetchCanonical

/-- `fetch_official_db.normalize_stations` (lines 164-183). -/
def fetchNormalizeStations (df0 : DataFrame) : DataFrame :=
  let df := lowerCols df0
  let df := if df.hasCol "id" && !df.hasCol "station_id" then df.renameCol "id" "station_id" else df
  let df := if df.hasCol "nome" && !df.hasCol "station_name" then df.renameCol "nome" "station_name" else df
  let df := if df.hasCol "lat_y_4326" && !df.hasCol "lat" then df.renameCol "lat_y_4326" "lat" else df
  let df := if df.hasCol "long_x_4326" && !df.hasCol "lon" then df.renameCol "long_x_4326" "lon" else df
  let canon := ["station_id", "station_name", "id_arpa", "inizio_operativita",
    "fine_operativita", "inquinanti", "lon", "lat", "location"]
  (df.ensureCols canon).select canon

/-! ### The dashboard's `normalize_measurements` (app.py 42-90)

The dashboard computes all four candidate lists up front (lines 47-50) and
then assigns.  The assignment steps receive the candidate lists as
arguments, exactly as the code closes over them. -/

/-- Lines 53-56: datetime assignment. -/
def appDatetimeStep (df : DataFrame) (dateCols : List String) : DataFrame :=
  match dateCols.head? with
  | some d => df.setCol "datetime" Dtype.datetime ((df.colData d).map toDatetimeCell)
  | none => df.setScalar "datetime" Dtype.datetime Cell.na

/-- Lines 58-63: value assignment (keyword match, else first numeric
column, else a missing scalar). -/
def appValueStep (df : DataFrame) (valCols : List String) : DataFrame :=
  match valCols.head? with
  | some v => df.setCol "value" Dtype.number ((df.colData v).map toNumericCell)
  | none =>
      match (df.cols.filter (fun c => c.dtype == Dtype.number)).head? with
      | some c => df.setCol "value" Dtype.number c.data
      | none => df.setScalar "value" Dtype.obj Cell.na

/-- Lines 65-68: pollutant assignment.  In the fallback branch
`df.get("inquinanti_aria_tipologia", df.get("nome", pd.NA)).astype(str)`
raises `AttributeError` when both columns are absent (`pd.NA` has no
`astype`); that raise is modelled as `none`. -/
def appPollStep (df : DataFrame) (pollCols : List String) : Option DataFrame :=
  match pollCols.head? with
  | some p => some (df.setCol "pollutant" Dtype.obj ((df.colData p).map astypeStrCell))
  | none =>
      match df.getCol "inquinanti_aria_tipologia" with
      | some c => some (df.setCol "pollutant" Dtype.obj (c.data.map astypeStrCell))
      | none =>
          match df.getCol "nome" with
          | some c => some (df.setCol "pollutant" Dtype.obj (c.data.map astypeStrCell))
          | none => none

/-- Lines 70-78: station id assignment (with the `nomecentralina` and `id`
fallbacks). -/
def appStationStep (df : DataFrame) (stCols : List String) : DataFrame :=
  match stCols.head? with
  | some s0 => df.setCol "station_id" Dtype.obj ((df.colData s0).map astypeStrCell)
  | none =>
      if df.hasCol "nomecentralina" then
        let d1 := df.setCol "station_name" Dtype.obj
          ((df.colData "nomecentralina").map astypeStrCell)
        d1.setCol "station_id" Dtype.obj ((d1.colData "nomecentralina").map astypeStrCell)
      else
        match df.getCol "id" with
        | some c => df.setCol "station_id" c.dtype c.data
        | none => df.setScalar "station_id" Dtype.obj Cell.na

/-- Lines 81-82: `df["date"] = pd.to_datetime(df["datetime"])` and
`df["year"] = df["date"].dt.year`. -/
def appYearStep (df : DataFrame) : DataFrame :=
  let d1 := df.setCol "date" Dtype.datetime ((df.colData "datetime").map toDatetimeCell)
  d1.setCol "year" Dtype.number ((d1.colData "date").map yearOfCell)

/-- Line 86: the output columns of the dashboard's normalizer. -/
def appWanted : List String :=
  ["date", "datetime", "year", "station_id", "station_name", "pollutant", "value"]

/-- `app.normalize_measurements`, lines 42-82 (before the `dropna`). -/
def appPreDrop (df0 : DataFrame) : Option DataFrame :=
  let df := lowerCols df0
  let dateCols := df.colNames.filter appDateMatch
  let valCols := df.colNames.filter appValueMatch
  let pollCols := df.colNames.filter appPolMatch
  let stCols := df.colNames.filter appStMatch
  (appPollStep (appValueStep (appDatetimeStep df dateCols) valCols) pollCols).map
    (fun d => appYearStep (appStationStep d stCols))

/-- `app.normalize_measurements` (lines 42-90); `none` models the
`AttributeError` raised on the dead-end pollutant fallback. -/
def appNormalize (df0 : DataFrame) : Option DataFrame :=
  (appPreDrop df0).map (fun d =>
    let d := d.dropnaAny ["value", "pollutant"]
    let d := d.ensureCols appWanted
    d.select appWanted)

/-- `app.normalize_stations` (lines 92-103). -/
def appNormalizeStations (df0 : DataFrame) : DataFrame :=
  let df := lowerCols df0
  let df := if df.hasCol "id" && !df.hasCol "station_id" then df.renameCol "id" "station_id" else df
  let df := if df.hasCol "nome" && !df.hasCol "station_name" then df.renameCol "nome" "station_name" else df
  let canon := ["station_id", "station_name", "lat", "lon", "station_type"]
  (df.ensureCols canon).select canon

/-! ### Concatenation, merge, and the load/persist pipelines -/

/-- `pd.concat([a, b], ignore_index=True, sort=False)`: columns are the union
in order of first appearance; absent cells are filled with `NaN`; conflicting
dtypes degrade to object. -/
def concatDF (a b : DataFrame) : DataFrame :=
  let names := a.colNames ++ b.colNames.filter (fun n => !(a.colNames.contains n))
  { nrows := a.nrows + b.nrows,
    cols := names.map (fun n =>
      let da := match a.getCol n with
        | some c => (List.range a.nrows).map (fun i => c.data.getD i Cell.na)
        | none => List.replicate a.nrows Cell.na
      let db := match b.getCol n with
        | some c => (List.range b.nrows).map (fun i => c.data.getD i Cell.na)
        | none => List.replicate b.nrows Cell.na
      let t := match a.getCol n, b.getCol n with
        | some c, none => c.dtype
        | none, some c => c.dtype
        | some c, some c' => if c.dtype == c'.dtype then c.dtype else Dtype.obj
        | none, none => Dtype.obj
      ⟨n, t, da ++ db⟩) }

/-- The non-key columns of the right (stations) frame in a merge on
`station_id`. -/
def rightCols (s : DataFrame) : List Column :=
  s.cols.filter (fun c => !(c.name == "station_id"))

/-- The (left row, matched right row) index pairs of
`measures.merge(stations, on="station_id", how="left")`: each left row is
paired with every matching right row, or with `none` when no right row
matches.  pandas matches missing keys to missing keys. -/
def mergeIdx (m s : DataFrame) : List (Nat × Option Nat) :=
  (List.range m.nrows).flatMap (fun i =>
    let k := (m.colData "station_id").getD i Cell.na
    let js := (List.range s.nrows).filter
      (fun j => (s.colData "station_id").getD j Cell.na == k)
    if js.isEmpty then [(i, none)] else js.map (fun j => (i, some j)))

/-- `measures.merge(stations, on="station_id", how="left")`.  Overlapping
non-key column names receive pandas' `_x`/`_y` suffixes. -/
def leftMerge (m s : DataFrame) : DataFrame :=
  let rc := rightCols s
  let rnames := rc.map (fun c => c.name)
  let lnames := m.colNames
  let idx := mergeIdx m s
  { nrows := idx.length,
    cols :=
      m.cols.map (fun c =>
        ⟨if rnames.contains c.name then c.name ++ "_x" else c.name, c.dtype,
         idx.map (fun p => c.data.getD p.1 Cell.na)⟩) ++
      rc.map (fun c =>
        ⟨if lnames.contains c.name then c.name ++ "_y" else c.name, c.dtype,
         idx.map (fun p => match p.2 with
           | some j => c.data.getD j Cell.na
           | none => Cell.na)⟩) }

/-- The station-key column of the stations frame, padded to its row count:
the key values a merge on `station_id` compares against. -/
def stationKeys (s : DataFrame) : List Cell :=
  (List.range s.nrows).map (fun j => (s.colData "station_id").getD j Cell.na)

/-- `app.load_and_prepare`, lines 124-144, taking the two already-normalized
measurement frames (after their try/except fallbacks) and the stations read
result.  `none` models an uncaught exception: a failed stations read, or the
`KeyError` raised by the final cleanup when the concatenated frame lacks the
`year`/`value`/`pollutant` columns. -/
def loadCore (meas2 meas1 : DataFrame) (strr : Option DataFrame) :
    Option (DataFrame × DataFrame) :=
  let measures := if meas2.isEmpty then meas1 else concatDF meas2 meas1
  match strr with
  | none => none
  | some sraw =>
      let stations := appNormalizeStations sraw
      let merged := if measures.hasCol "station_id" && !stations.isEmpty then
          leftMerge measures stations
        else measures
      if merged.hasCol "year" && merged.hasCol "value" && merged.hasCol "pollutant" then
        let merged := merged.setCol "year" Dtype.number
          ((merged.colData "year").map toNumericCell)
        let merged := merged.setCol "value" Dtype.number
          ((merged.colData "value").map toNumericCell)
        some (merged.dropnaAny ["value", "pollutant"], stations)
      else none

/-- `app.load_and_prepare` (lines 109-144).  `m2r`, `m1r` are the
`read_json_flexible` results for the two measurement URLs (`none` = the read
raised) and `strr` is the stations CSV read result.  A failed or raising
measurement read/normalize falls back to `pd.DataFrame()` via try/except. -/
def loadAndPrepare (m2r m1r strr : Option DataFrame) :
    Option (DataFrame × DataFrame) :=
  loadCore ((m2r.bind appNormalize).getD emptyDF)
    ((m1r.bind appNormalize).getD emptyDF) strr

/-! ### The flexible JSON readers (fetch_official_db.py 54-73, app.py 25-33) -/

/-- The outcome of `json.load` on a source: whether `pd.json_normalize(j)`
succeeds, and the `pd.DataFrame(j)` result when `j` is a list. -/
structure JsonObject where
  normalized : Option DataFrame
  listDF : Option DataFrame
deriving DecidableEq, Repr

/-- A JSON source, abstracted by the outcome of each parsing strategy on it:
`pd.read_json(path)`, `pd.read_json(path, orient="records")`, and
`json.load`. -/
structure JsonSource where
  direct : Option DataFrame
  records : Option DataFrame
  loaded : Option JsonObject
deriving DecidableEq, Repr

/-- `fetch_official_db.read_json_flexible` (lines 54-73): nested
try/except over the four strategies; `none` models a raise. -/
def fetchReadJson (s : JsonSource) : Option DataFrame :=
  match s.direct with
  | some df => some df
  | none =>
      match s.records with
      | some df => some df
      | none =>
          match s.loaded with
          | none => none
          | some j =>
              match j.normalized with
              | some df => some df
              | none => j.listDF

/-- `app.read_json_flexible` (lines 25-33): only the first two strategies;
`none` models the `URLError` raised when both fail. -/
def appReadJson (s : JsonSource) : Option DataFrame :=
  match s.direct with
  | some df => some df
  | none => s.records

/-! ### Persistence (`fetch_official_db.build_db`, lines 188-233) -/

/-- The output files `build_db` writes: the two CSVs and the SQLite snapshot
(as its list of named tables). -/
structure Store where
  csvOut : Option DataFrame
  stationsOut : Option DataFrame
  dbOut : Option (List (String × DataFrame))
deriving DecidableEq, Repr

/-- The success path of `build_db` (lines 199-233), from the three raw frames
read from the downloads: normalize, concatenate, clean up, then write the two
CSVs and recreate the SQLite snapshot (the pre-existing file is removed). -/
def buildDb (fs : Store) (df1 df2 stationsRaw : DataFrame) : Store :=
  let m1 := fetchNormalize df1
  let m2 := fetchNormalize df2
  let allMeasures := concatDF m1 m2
  let allMeasures := allMeasures.setCol "datetime" Dtype.datetime
    ((allMeasures.colData "datetime").map toDatetimeCell)
  let allMeasures := allMeasures.setCol "date" Dtype.obj
    ((allMeasures.colData "date").map astypeStrCell)
  let stationsNorm := fetchNormalizeStations stationsRaw
  let _ := fs
  { csvOut := some allMeasures,
    stationsOut := some stationsNorm,
    dbOut := some [("measurements", allMeasures), ("stations", stationsNorm)] }

/-! ### Trend and anomaly computation (app.py 204-212)

The annual series is the list of (year, annual mean) points the dashboard
feeds to `np.polyfit(years, values, 1)`; its slope is embedded by the
closed-form least-squares solution, and proved below to minimize the
quadratic loss `np.polyfit` is documented to minimize. -/

def ptsLen (pts : List (ℚ × ℚ)) : ℚ := (pts.length : ℚ)

def sumX (pts : List (ℚ × ℚ)) : ℚ := (pts.map (fun p => p.1)).sum

def sumY (pts : List (ℚ × ℚ)) : ℚ := (pts.map (fun p => p.2)).sum

def sumXX (pts : List (ℚ × ℚ)) : ℚ := (pts.map (fun p => p.1 * p.1)).sum

def sumXY (pts : List (ℚ × ℚ)) : ℚ := (pts.map (fun p => p.1 * p.2)).sum

def sumYY (pts : List (ℚ × ℚ)) : ℚ := (pts.map (fun p => p.2 * p.2)).sum

/-- The normal-equation denominator `n·Σx² − (Σx)²`. -/
def lsqDenom (pts : List (ℚ × ℚ)) : ℚ := ptsLen pts * sumXX pts - sumX pts * sumX pts

/-- The degree-1 least-squares slope, i.e. `np.polyfit(x, y, 1)[0]` (line
205's `trend`). -/
def lsqSlope (pts : List (ℚ × ℚ)) : ℚ :=
  (ptsLen pts * sumXY pts - sumX pts * sumY pts) / lsqDenom pts

/-- The degree-1 least-squares intercept, i.e. `np.polyfit(x, y, 1)[1]`. -/
def lsqIntercept (pts : List (ℚ × ℚ)) : ℚ :=
  (sumY pts - lsqSlope pts * sumX pts) / ptsLen pts

/-- The squared-error loss a degree-1 fit minimizes. -/
def lossQ (pts : List (ℚ × ℚ)) (a b : ℚ) : ℚ :=
  (pts.map (fun p => (a * p.1 + b - p.2) ^ 2)).sum

/-- The three trend messages of lines 206-211. -/
inductive TrendLabel where
  | decreasing : TrendLabel
  | increasing : TrendLabel
  | stable : TrendLabel
deriving DecidableEq, Repr

/-- Lines 205-211: classify the fitted slope against the ±0.01 thresholds. -/
def trendLabel (pts : List (ℚ × ℚ)) : TrendLabel :=
  if lsqSlope pts < -(1 / 100) then TrendLabel.decreasing
  else if (1 / 100 : ℚ) < lsqSlope pts then TrendLabel.increasing
  else TrendLabel.stable

/-- `series.mean()`. -/
def seriesMean (ys : List ℚ) : ℚ := ys.sum / (ys.length : ℚ)

/-- `series.std() ** 2`: the sample variance (pandas uses `ddof=1`). -/
def seriesVar (ys : List ℚ) : ℚ :=
  ((ys.map (fun y => (y - seriesMean ys) ^ 2)).sum) / ((ys.length : ℚ) - 1)

/-- Line 212's anomaly flag `y > mean + 2*std`, written without the square
root: `y − mean` positive and its square above `4·variance`. -/
def isAnomalous (ys : List ℚ) (y : ℚ) : Bool :=
  decide (0 < y - seriesMean ys) && decide (4 * seriesVar ys < (y - seriesMean ys) ^ 2)

/-- Line 212: the years whose annual mean is flagged anomalous. -/
def anomalousYears (pts : List (ℚ × ℚ)) : List ℚ :=
  (pts.filter (fun p => isAnomalous (pts.map (fun q => q.2)) p.2)).map (fun p => p.1)

/-! ### The four candidate-selection roles (for the first-match-wins claim) -/

/-- The four semantic roles whose source column both normalizers infer by
keyword matching. -/
inductive Role where
  | date : Role
  | value : Role
  | pollutant : Role
  | station : Role
deriving DecidableEq, Repr

/-- The fetcher's keyword matcher for each role. -/
def fetchRoleMatch : Role → String → Bool
  | Role.date => fetchDateMatch
  | Role.value => fetchValueMatch
  | Role.pollutant => fetchPolMatch
  | Role.station => fetchStMatch

/-- The dashboard's keyword matcher for each role. -/
def appRoleMatch : Role → String → Bool
  | Role.date => appDateMatch
  | Role.value => appValueMatch
  | Role.pollutant => appPolMatch
  | Role.station => appStMatch

/-- The candidate list the fetcher's normalizer builds for each role, over
the dataframe state at the point of that scan (dates are scanned first,
values after the date columns were assigned, and so on). -/
def fetchRoleCands (r : Role) (df : DataFrame) : List String :=
  match r with
  | Role.date => (lowerCols df).colNames.filter fetchDateMatch
  | Role.value => (fetchStage1 (lowerCols df)).colNames.filter fetchValueMatch
  | Role.pollutant =>
      (fetchStage2 (fetchStage1 (lowerCols df))).colNames.filter fetchPolMatch
  | Role.station =>
      (fetchStage3 (fetchStage2 (fetchStage1 (lowerCols df)))).colNames.filter fetchStMatch

/-- The candidate lists the dashboard's normalizer builds (all four are
computed up front over the lowercased input columns, app.py lines 47-50). -/
def appRoleCands (r : Role) (df : DataFrame) : List String :=
  (lowerCols df).colNames.filter (appRoleMatch r)

/-- `p` holds of the `k`-th name and of no earlier one: the "first match" of
a keyword scan. -/
def firstMatchAt (p : String → Bool) (l : List String) (k : Nat) : Prop :=
  k < l.length ∧ p (l.getD k "") = true ∧ ∀ m, m < k → p (l.getD m "") = false

/-! ### Concrete example frames (used by witnesses and counterexamples) -/

/-- A typical raw measurements frame with mixed-case Italian column names. -/
def exMeas : DataFrame :=
  ⟨2, [⟨"Data", Dtype.obj, [Cell.str "20240101", Cell.str "20240102"]⟩,
       ⟨"Valore", Dtype.number, [Cell.num 5, Cell.num 7]⟩,
       ⟨"Inquinante", Dtype.obj, [Cell.str "PM10", Cell.str "NO2"]⟩,
       ⟨"Stazione", Dtype.obj, [Cell.str "S1", Cell.str "S2"]⟩]⟩

/-- `exMeas` with its column names in a different letter case only. -/
def exMeasCased : DataFrame :=
  ⟨2, [⟨"DATA", Dtype.obj, [Cell.str "20240101", Cell.str "20240102"]⟩,
       ⟨"valore", Dtype.number, [Cell.num 5, Cell.num 7]⟩,
       ⟨"inquinantE", Dtype.obj, [Cell.str "PM10", Cell.str "NO2"]⟩,
       ⟨"stazione", Dtype.obj, [Cell.str "S1", Cell.str "S2"]⟩]⟩

/-- A measurements frame with no station-like column at all. -/
def exNoStation : DataFrame :=
  ⟨1, [⟨"valore", Dtype.number, [Cell.num 3]⟩,
       ⟨"inquinante", Dtype.obj, [Cell.str "PM10"]⟩]⟩

/-- A frame with two keyword-matching columns for every semantic role. -/
def exDupCols : DataFrame :=
  ⟨1, [⟨"data_inizio", Dtype.obj, [Cell.str "20240101"]⟩,
       ⟨"giorno", Dtype.obj, [Cell.str "20240102"]⟩,
       ⟨"valore", Dtype.number, [Cell.num 1]⟩,
       ⟨"value", Dtype.number, [Cell.num 2]⟩,
       ⟨"inquinante", Dtype.obj, [Cell.str "PM10"]⟩,
       ⟨"parametro", Dtype.obj, [Cell.str "NO2"]⟩,
       ⟨"stazione", Dtype.obj, [Cell.str "A"]⟩,
       ⟨"codice", Dtype.obj, [Cell.str "B"]⟩]⟩

/-- A raw stations frame as the stations CSV provides it. -/
def exStationsRaw : DataFrame :=
  ⟨2, [⟨"id", Dtype.obj, [Cell.str "S1", Cell.str "S3"]⟩,
       ⟨"nome", Dtype.obj, [Cell.str "Centro", Cell.str "Nord"]⟩,
       ⟨"lat", Dtype.number, [Cell.num 45, Cell.num 46]⟩,
       ⟨"lon", Dtype.number, [Cell.num 9, Cell.num 10]⟩]⟩

/-- A small normalized measurements frame for merge examples. -/
def exMergeLeft : DataFrame :=
  ⟨2, [⟨"station_id", Dtype.obj, [Cell.str "S1", Cell.str "S2"]⟩,
       ⟨"value", Dtype.number, [Cell.num 5, Cell.num 7]⟩]⟩

/-- Station metadata keyed by `station_id`, with distinct keys. -/
def exMergeRight : DataFrame :=
  ⟨2, [⟨"station_id", Dtype.obj, [Cell.str "S1", Cell.str "S3"]⟩,
       ⟨"station_name", Dtype.obj, [Cell.str "Centro", Cell.str "Nord"]⟩]⟩

/-- A frame with no value-keyword column and one numeric column. -/
def exNumOnly : DataFrame :=
  ⟨1, [⟨"inquinante", Dtype.obj, [Cell.str "PM10"]⟩,
       ⟨"pressione", Dtype.number, [Cell.num 42]⟩]⟩

/-- A frame with no value-keyword column and no numeric column. -/
def exNoNum : DataFrame :=
  ⟨1, [⟨"inquinante", Dtype.obj, [Cell.str "PM10"]⟩,
       ⟨"descrizione", Dtype.obj, [Cell.str "x"]⟩]⟩

/-! ### Basic lemmas about the dataframe operations -/

theorem filter_head?_eq_find? {α} (p : α → Bool) :
    ∀ l : List α, (l.filter p).head? = l.find? p
  | [] => rfl
  | a :: l => by
      by_cases h : p a
      · simp [List.filter_cons, h, List.find?_cons_of_pos _ h]
      · simp [List.filter_cons, h, List.find?_cons_of_neg _ h,
          filter_head?_eq_find? p l]

theorem find?_first {α} (p : α → Bool) (d : α) :
    ∀ (l : List α) (x : α), l.find? p = some x →
      ∃ k, k < l.length ∧ l.getD k d = x ∧ p (l.getD k d) = true ∧
        ∀ m, m < k → p (l.getD m d) = false
  | [], x, h => by simp [List.find?] at h
  | a :: l, x, h => by
      by_cases ha : p a
      · rw [List.find?_cons_of_pos _ ha] at h
        refine ⟨0, by simp, ?_, ?_, fun m hm => absurd hm (Nat.not_lt_zero m)⟩
        · simpa [List.getD_cons_zero] using (Option.some.inj h)
        · simpa [List.getD_cons_zero, Option.some.inj h] using ha
      · rw [List.find?_cons_of_neg _ ha] at h
        obtain ⟨k, hk, hx, hp, hmin⟩ := find?_first p d l x h
        refine ⟨k + 1, by simpa using Nat.succ_lt_succ hk, ?_, ?_, ?_⟩
        · simpa [List.getD_cons_succ] using hx
        · simpa [List.getD_cons_succ] using hp
        · intro m hm
          cases m with
          | zero => simpa [List.getD_cons_zero] using ha
          | succ m' =>
              simpa [List.getD_cons_succ] using hmin m' (Nat.lt_of_succ_lt_succ hm)

theorem getD_map' {α β} (f : α → β) (l : List α) (i : Nat) (d : α) (d' : β)
    (h : i < l.length) : (l.map f).getD i d' = f (l.getD i d) := by
  rw [List.getD_eq_getElem _ _ (by simpa using h), List.getD_eq_getElem _ _ h,
    List.getElem_map]

theorem getCol_name {df : DataFrame} {n : String} {c : Column}
    (h : df.getCol n = some c) : c.name = n := by
  have := List.find?_some h
  simpa using this

theorem find?_name_map (cols : List Column) (f : Column → Column)
    (hf : ∀ c, (f c).name = c.name) (n : String) :
    (cols.map f).find? (fun c => c.name == n) =
      (cols.find? (fun c => c.name == n)).map f := by
  rw [List.find?_map]
  have : ((fun c : Column => c.name == n) ∘ f) = (fun c : Column => c.name == n) := by
    funext c
    simp [Function.comp, hf c]
  rw [this]

theorem setCol_nrows (df : DataFrame) (n : String) (t : Dtype) (d : List Cell) :
    (df.setCol n t d).nrows = df.nrows := by
  unfold DataFrame.setCol
  split <;> rfl

theorem setScalar_nrows (df : DataFrame) (n : String) (t : Dtype) (v : Cell) :
    (df.setScalar n t v).nrows = df.nrows := setCol_nrows df n t _

theorem getCol_setCol_self (df : DataFrame) (n : String) (t : Dtype) (d : List Cell) :
    (df.setCol n t d).getCol n = some ⟨n, t, d⟩ := by
  unfold DataFrame.setCol
  by_cases h : df.hasCol n
  · simp only [h, if_true]
    have hf : ∀ c : Column,
        ((fun c => if c.name == n then (⟨n, t, d⟩ : Column) else c) c).name = c.name := by
      intro c
      by_cases hc : c.name == n
      · simp [hc, (by simpa using hc : c.name = n)]
      · simp [hc]
    simp only [DataFrame.getCol]
    rw [find?_name_map _ _ hf]
    obtain ⟨c, hc⟩ := Option.isSome_iff_exists.mp h
    have hcn : c.name = n := getCol_name hc
    rw [show df.cols.find? (fun c => c.name == n) = some c from hc]
    simp [hcn]
  · rw [if_neg h]
    simp only [DataFrame.getCol]
    rw [List.find?_append]
    have h0 : df.cols.find? (fun c => c.name == n) = none := by
      by_contra hc
      exact h (Option.isSome_iff_ne_none.mpr (by simpa [DataFrame.getCol] using hc))
    simp [h0, List.find?]

theorem getCol_setCol_ne (df : DataFrame) (n n' : String) (t : Dtype)
    (d : List Cell) (h : n' ≠ n) : (df.setCol n t d).getCol n' = df.getCol n' := by
  unfold DataFrame.setCol
  by_cases hh : df.hasCol n
  · simp only [hh, if_true]
    have hf : ∀ c : Column,
        ((fun c => if c.name == n then (⟨n, t, d⟩ : Column) else c) c).name = c.name := by
      intro c
      by_cases hc : c.name == n
      · simp [hc, (by simpa using hc : c.name = n)]
      · simp [hc]
    simp only [DataFrame.getCol]
    rw [find?_name_map _ _ hf]
    cases hg : df.cols.find? (fun c => c.name == n') with
    | none => rfl
    | some c =>
        have hcn : c.name = n' := by simpa using List.find?_some hg
        simp only [Option.map_some']
        have hne : (if (c.name == n) = true then (⟨n, t, d⟩ : Column) else c) = c := by
          rw [if_neg (by simp [hcn, h])]
        rw [hne]
  · rw [if_neg hh]
    simp only [DataFrame.getCol]
    rw [List.find?_append]
    have hsing : ([(⟨n, t, d⟩ : Column)].find? (fun c => c.name == n')) = none := by
      have hb : (n == n') = false := by simp [Ne.symm h]
      simp [List.find?, hb]
    rw [hsing]
    cases df.cols.find? (fun c => c.name == n') <;> rfl

theorem colNames_setCol (df : DataFrame) (n : String) (t : Dtype) (d : List Cell) :
    (df.setCol n t d).colNames =
      if df.hasCol n then df.colNames else df.colNames ++ [n] := by
  unfold DataFrame.setCol
  by_cases hh : df.hasCol n
  · simp only [hh, if_true, DataFrame.colNames, List.map_map]
    congr 1
    funext c
    by_cases hc : c.name == n
    · simp [Function.comp, hc, (by simpa using hc : c.name = n)]
    · simp [Function.comp, hc]
  · simp [hh, DataFrame.colNames]

theorem hasCol_iff_mem (df : DataFrame) (n : String) :
    df.hasCol n = true ↔ n ∈ df.colNames := by
  unfold DataFrame.hasCol DataFrame.getCol
  rw [Option.isSome_iff_exists]
  constructor
  · rintro ⟨c, hc⟩
    have := List.find?_some hc
    exact List.mem_map.mpr ⟨c, List.mem_of_find?_eq_some hc, by simpa using this⟩
  · intro hmem
    obtain ⟨c, hcmem, hcn⟩ := List.mem_map.mp hmem
    have h2 : (df.cols.find? (fun c => c.name == n)).isSome :=
      List.find?_isSome.mpr ⟨c, hcmem, by simp [hcn]⟩
    exact Option.isSome_iff_exists.mp h2

theorem hasCol_setCol_self (df : DataFrame) (n : String) (t : Dtype) (d : List Cell) :
    (df.setCol n t d).hasCol n = true := by
  unfold DataFrame.hasCol
  rw [getCol_setCol_self]
  rfl

theorem hasCol_setCol_ne (df : DataFrame) (n n' : String) (t : Dtype)
    (d : List Cell) (h : n' ≠ n) :
    (df.setCol n t d).hasCol n' = df.hasCol n' := by
  unfold DataFrame.hasCol
  rw [getCol_setCol_ne df n n' t d h]

theorem colData_of_getCol {df : DataFrame} {n : String} {c : Column}
    (h : df.getCol n = some c) : df.colData n = c.data := by
  simp [DataFrame.colData, h]

theorem colData_of_none {df : DataFrame} {n : String}
    (h : df.getCol n = none) : df.colData n = List.replicate df.nrows Cell.na := by
  simp [DataFrame.colData, h]

theorem replicate_na_getD (n i : Nat) :
    (List.replicate n Cell.na).getD i Cell.na = Cell.na := by
  by_cases h : i < n
  · rw [List.getD_eq_getElem _ _ (by simpa using h)]
    exact List.getElem_replicate Cell.na (by simpa using h)
  · exact List.getD_eq_default _ _ (by simpa using Nat.le_of_not_lt h)

theorem ensureCols_getCol (ns : List String) :
    ∀ (df : DataFrame) (n : String) (c : Column),
      df.getCol n = some c → (df.ensureCols ns).getCol n = some c := by
  induction ns with
  | nil => intro df n c h; exact h
  | cons m ms ih =>
      intro df n c h
      have hstep : DataFrame.ensureCols df (m :: ms) =
          DataFrame.ensureCols (if df.hasCol m then df else df.setScalar m Dtype.obj Cell.na) ms := by
        simp [DataFrame.ensureCols, List.foldl_cons]
      rw [hstep]
      by_cases hm : df.hasCol m
      · rw [if_pos hm]; exact ih df n c h
      · rw [if_neg hm]
        apply ih
        have hnm : n ≠ m := by
          intro he
          exact hm (he ▸ (by unfold DataFrame.hasCol; rw [h]; rfl))
        unfold DataFrame.setScalar
        rw [getCol_setCol_ne _ _ _ _ _ hnm]
        exact h

theorem ensureCols_hasCol_mono (ns : List String) (df : DataFrame) (n : String)
    (h : df.hasCol n = true) : (df.ensureCols ns).hasCol n = true := by
  obtain ⟨c, hc⟩ := Option.isSome_iff_exists.mp h
  unfold DataFrame.hasCol
  rw [ensureCols_getCol ns df n c hc]
  rfl

theorem ensureCols_hasCol_of_mem (ns : List String) :
    ∀ (df : DataFrame) (n : String), n ∈ ns → (df.ensureCols ns).hasCol n = true := by
  induction ns with
  | nil => intro df n h; cases h
  | cons m ms ih =>
      intro df n hmem
      have hstep : DataFrame.ensureCols df (m :: ms) =
          DataFrame.ensureCols (if df.hasCol m then df else df.setScalar m Dtype.obj Cell.na) ms := by
        simp [DataFrame.ensureCols, List.foldl_cons]
      rw [hstep]
      rcases List.mem_cons.mp hmem with he | hms
      · subst he
        by_cases hm : df.hasCol n
        · rw [if_pos hm]; exact ensureCols_hasCol_mono ms df n hm
        · rw [if_neg hm]
          exact ensureCols_hasCol_mono ms _ n (hasCol_setCol_self df n _ _)
      · by_cases hm : df.hasCol m
        · rw [if_pos hm]; exact ih df n hms
        · rw [if_neg hm]; exact ih _ n hms

theorem ensureCols_nrows (ns : List String) : ∀ df : DataFrame,
    (df.ensureCols ns).nrows = df.nrows := by
  induction ns with
  | nil => intro df; rfl
  | cons m ms ih =>
      intro df
      have hstep : DataFrame.ensureCols df (m :: ms) =
          DataFrame.ensureCols (if df.hasCol m then df else df.setScalar m Dtype.obj Cell.na) ms := by
        simp [DataFrame.ensureCols, List.foldl_cons]
      rw [hstep]
      by_cases hm : df.hasCol m
      · rw [if_pos hm]; exact ih df
      · rw [if_neg hm]; rw [ih _, setScalar_nrows]

theorem select_nrows (df : DataFrame) (ns : List String) :
    (df.select ns).nrows = df.nrows := rfl

theorem select_colNames (ns : List String) : ∀ df : DataFrame,
    (∀ n ∈ ns, df.hasCol n = true) → (df.select ns).colNames = ns := by
  induction ns with
  | nil => intro df _; rfl
  | cons m ms ih =>
      intro df h
      obtain ⟨c, hc⟩ := Option.isSome_iff_exists.mp (h m (by simp))
      have hrest := ih df (fun n hn => h n (by simp [hn]))
      have hsel : (df.select (m :: ms)).cols = c :: (df.select ms).cols := by
        simp [DataFrame.select, List.filterMap_cons, hc]
      unfold DataFrame.colNames
      rw [hsel, List.map_cons, getCol_name hc]
      rw [show List.map (fun c => c.name) (df.select ms).cols = (df.select ms).colNames from rfl,
        hrest]

theorem select_getCol (ns : List String) : ∀ (df : DataFrame) (n : String),
    (∀ m ∈ ns, df.hasCol m = true) → n ∈ ns →
    (df.select ns).getCol n = df.getCol n := by
  induction ns with
  | nil => intro df n _ hmem; cases hmem
  | cons m ms ih =>
      intro df n h hmem
      obtain ⟨c, hc⟩ := Option.isSome_iff_exists.mp (h m (by simp))
      have hsel : (df.select (m :: ms)).cols = c :: (df.select ms).cols := by
        simp [DataFrame.select, List.filterMap_cons, hc]
      by_cases hnm : n = m
      · subst hnm
        unfold DataFrame.getCol
        rw [hsel]
        rw [List.find?_cons_of_pos _ (by simp [getCol_name hc])]
        exact hc.symm
      · have hmem' : n ∈ ms := by
          rcases List.mem_cons.mp hmem with he | hms
          · exact absurd he hnm
          · exact hms
        have hih := ih df n (fun m' hm' => h m' (by simp [hm'])) hmem'
        unfold DataFrame.getCol
        rw [hsel]
        rw [List.find?_cons_of_neg _ (by simp [getCol_name hc, Ne.symm hnm])]
        exact hih

theorem dropna_getCol (df : DataFrame) (ss : List String) (n : String) :
    (df.dropnaAny ss).getCol n = (df.getCol n).map (fun c =>
      ⟨c.name, c.dtype, ((List.range df.nrows).filter (df.keepRow ss)).map
        (fun i => c.data.getD i Cell.na)⟩) := by
  simp only [DataFrame.dropnaAny, DataFrame.getCol]
  exact find?_name_map df.cols
    (fun c => ⟨c.name, c.dtype, ((List.range df.nrows).filter (df.keepRow ss)).map
      (fun i => c.data.getD i Cell.na)⟩) (fun c => rfl) n

theorem dropna_nrows (df : DataFrame) (ss : List String) :
    (df.dropnaAny ss).nrows = ((List.range df.nrows).filter (df.keepRow ss)).length := rfl

theorem dropna_kept (df : DataFrame) (ss : List String) (n : String) (hn : n ∈ ss)
    (i : Nat) (hi : i < (df.dropnaAny ss).nrows) :
    ((df.dropnaAny ss).colData n).getD i Cell.na ≠ Cell.na := by
  have hilen : i < ((List.range df.nrows).filter (df.keepRow ss)).length := hi
  have hjmem : ((List.range df.nrows).filter (df.keepRow ss)).getD i 0 ∈
      (List.range df.nrows).filter (df.keepRow ss) := by
    rw [List.getD_eq_getElem _ _ hilen]
    exact List.getElem_mem _
  have hjkeep : df.keepRow ss (((List.range df.nrows).filter (df.keepRow ss)).getD i 0) = true :=
    (List.mem_filter.mp hjmem).2
  have hjn : ¬((df.colData n).getD
      (((List.range df.nrows).filter (df.keepRow ss)).getD i 0) Cell.na == Cell.na) = true := by
    have := List.all_eq_true.mp hjkeep n hn
    simpa using this
  cases hc : df.getCol n with
  | none =>
      exfalso
      apply hjn
      rw [colData_of_none hc, replicate_na_getD]
      rfl
  | some c =>
      have hdat : (df.dropnaAny ss).colData n =
          ((List.range df.nrows).filter (df.keepRow ss)).map (fun j => c.data.getD j Cell.na) := by
        rw [DataFrame.colData, dropna_getCol, hc]
        rfl
      rw [hdat, getD_map' _ _ i 0 Cell.na hilen]
      intro heq
      apply hjn
      rw [colData_of_getCol hc, heq]
      rfl

theorem getCol_of_mem_nodup : ∀ (cols : List Column),
    (cols.map (fun c => c.name)).Nodup →
    ∀ c ∈ cols, cols.find? (fun c' => c'.name == c.name) = some c := by
  intro cols
  induction cols with
  | nil => intro _ c hc; cases hc
  | cons c0 tl ih =>
      intro hnd c hc
      have hnd' : (tl.map (fun c => c.name)).Nodup := (List.nodup_cons.mp hnd).2
      rcases List.mem_cons.mp hc with he | htl
      · subst he
        exact List.find?_cons_of_pos _ (by simp)
      · by_cases hname : c0.name = c.name
        · exfalso
          have : c0.name ∈ tl.map (fun c => c.name) :=
            List.mem_map.mpr ⟨c, htl, hname.symm⟩
          exact (List.nodup_cons.mp hnd).1 this
        · rw [List.find?_cons_of_neg _ (by simp [hname])]
          exact ih hnd' c htl

theorem setCol_eq_self (df : DataFrame) (n : String) (t : Dtype) (d : List Cell)
    (hnd : df.colNames.Nodup) (h : df.getCol n = some ⟨n, t, d⟩) :
    df.setCol n t d = df := by
  unfold DataFrame.setCol
  rw [if_pos (by unfold DataFrame.hasCol; rw [h]; rfl)]
  have hmap : df.cols.map (fun c => if c.name == n then (⟨n, t, d⟩ : Column) else c) =
      df.cols := by
    have hcongr : ∀ c ∈ df.cols,
        (if c.name == n then (⟨n, t, d⟩ : Column) else c) = id c := by
      intro c hc
      by_cases hcn : c.name = n
      · have : df.getCol n = some c := by
          have := getCol_of_mem_nodup df.cols hnd c hc
          rw [hcn] at this
          exact this
        rw [h] at this
        simp [hcn, ← Option.some.inj this]
      · simp [hcn]
    rw [List.map_congr_left hcongr, List.map_id]
  rw [hmap]

theorem lowerCols_nrows (df : DataFrame) : (lowerCols df).nrows = df.nrows := rfl

theorem colNames_lowerCols (df : DataFrame) :
    (lowerCols df).colNames = df.colNames.map strLower := by
  simp [lowerCols, DataFrame.colNames, List.map_map, Function.comp]

/-! ### Stage-level lemmas for the two normalizers -/

theorem hasCol_setCol_mono (df : DataFrame) (n n' : String) (t : Dtype)
    (d : List Cell) (h : df.hasCol n' = true) :
    (df.setCol n t d).hasCol n' = true := by
  by_cases he : n' = n
  · subst he; exact hasCol_setCol_self df n' t d
  · rw [hasCol_setCol_ne df n n' t d he]; exact h

theorem filter_colNames_setCol (df : DataFrame) (n : String) (t : Dtype)
    (d : List Cell) (p : String → Bool) (hp : p n = false) :
    ((df.setCol n t d).colNames).filter p = df.colNames.filter p := by
  rw [colNames_setCol]
  by_cases h : df.hasCol n
  · rw [if_pos h]
  · rw [if_neg h, List.filter_append]
    simp [hp]

theorem fetchStage1_filter (df : DataFrame) (p : String → Bool)
    (h1 : p "datetime" = false) (h2 : p "date" = false) :
    ((fetchStage1 df).colNames).filter p = df.colNames.filter p := by
  unfold fetchStage1
  cases hd : (df.colNames.filter fetchDateMatch).head? with
  | some dcol =>
      simp only []
      rw [filter_colNames_setCol _ _ _ _ p h2, filter_colNames_setCol _ _ _ _ p h1]
  | none =>
      by_cases hy : (df.hasCol "year" && df.hasCol "month" && df.hasCol "day") = true
      · simp only [hy, if_true]
        rw [filter_colNames_setCol _ _ _ _ p h2, filter_colNames_setCol _ _ _ _ p h1]
      · simp only [hy]
        rw [if_neg (by simp [hy])]
        unfold DataFrame.setScalar
        rw [filter_colNames_setCol _ _ _ _ p h2, filter_colNames_setCol _ _ _ _ p h1]

theorem fetchStage2_filter (df : DataFrame) (p : String → Bool)
    (h1 : p "value" = false) :
    ((fetchStage2 df).colNames).filter p = df.colNames.filter p := by
  unfold fetchStage2
  cases hv : (df.colNames.filter fetchValueMatch).head? with
  | some v =>
      simp only []
      rw [filter_colNames_setCol _ _ _ _ p h1]
  | none =>
      cases hn : (df.cols.filter (fun c => c.dtype == Dtype.number)).head? with
      | some c =>
          simp only []
          rw [filter_colNames_setCol _ _ _ _ p h1]
      | none =>
          simp only [DataFrame.setScalar]
          rw [filter_colNames_setCol _ _ _ _ p h1]

theorem fetchStage3_filter (df : DataFrame) (p : String → Bool)
    (h1 : p "pollutant" = false) :
    ((fetchStage3 df).colNames).filter p = df.colNames.filter p := by
  unfold fetchStage3
  cases hp3 : (df.colNames.filter fetchPolMatch).head? with
  | some v =>
      simp only []
      rw [filter_colNames_setCol _ _ _ _ p h1]
  | none =>
      simp only [DataFrame.setScalar]
      rw [filter_colNames_setCol _ _ _ _ p h1]

theorem fetchStage1_getCol_ne (df : DataFrame) (n : String)
    (h1 : n ≠ "datetime") (h2 : n ≠ "date") :
    (fetchStage1 df).getCol n = df.getCol n := by
  unfold fetchStage1
  cases hd : (df.colNames.filter fetchDateMatch).head? with
  | some dcol =>
      simp only []
      rw [getCol_setCol_ne _ _ _ _ _ h2, getCol_setCol_ne _ _ _ _ _ h1]
  | none =>
      by_cases hy : (df.hasCol "year" && df.hasCol "month" && df.hasCol "day") = true
      · simp only [hy, if_true]
        rw [getCol_setCol_ne _ _ _ _ _ h2, getCol_setCol_ne _ _ _ _ _ h1]
      · simp only [hy]
        rw [if_neg (by simp [hy])]
        unfold DataFrame.setScalar
        rw [getCol_setCol_ne _ _ _ _ _ h2, getCol_setCol_ne _ _ _ _ _ h1]

theorem fetchStage2_getCol_ne (df : DataFrame) (n : String) (h1 : n ≠ "value") :
    (fetchStage2 df).getCol n = df.getCol n := by
  unfold fetchStage2
  cases hv : (df.colNames.filter fetchValueMatch).head? with
  | some v => simp only []; rw [getCol_setCol_ne _ _ _ _ _ h1]
  | none =>
      cases hn : (df.cols.filter (fun c => c.dtype == Dtype.number)).head? with
      | some c => simp only []; rw [getCol_setCol_ne _ _ _ _ _ h1]
      | none =>
          simp only [DataFrame.setScalar]
          rw [getCol_setCol_ne _ _ _ _ _ h1]

theorem fetchStage3_getCol_ne (df : DataFrame) (n : String) (h1 : n ≠ "pollutant") :
    (fetchStage3 df).getCol n = df.getCol n := by
  unfold fetchStage3
  cases hp3 : (df.colNames.filter fetchPolMatch).head? with
  | some v => simp only []; rw [getCol_setCol_ne _ _ _ _ _ h1]
  | none =>
      simp only [DataFrame.setScalar]
      rw [getCol_setCol_ne _ _ _ _ _ h1]

theorem fetchStage4_getCol_ne (df : DataFrame) (n : String) (h1 : n ≠ "station_id") :
    (fetchStage4 df).getCol n = df.getCol n := by
  unfold fetchStage4
  cases hs : (df.colNames.filter fetchStMatch).head? with
  | some v => simp only []; rw [getCol_setCol_ne _ _ _ _ _ h1]
  | none =>
      simp only [DataFrame.setScalar]
      rw [getCol_setCol_ne _ _ _ _ _ h1]

theorem fetchStage5_getCol_ne (df : DataFrame) (n : String) (h1 : n ≠ "station_name") :
    (fetchStage5 df).getCol n = df.getCol n := by
  unfold fetchStage5
  cases hs : (df.colNames.filter fetchNameMatch).head? with
  | some v => simp only []; rw [getCol_setCol_ne _ _ _ _ _ h1]
  | none =>
      cases hg : df.getCol "station_id" with
      | some c => simp only []; rw [getCol_setCol_ne _ _ _ _ _ h1]
      | none =>
          simp only [DataFrame.setScalar]
          rw [getCol_setCol_ne _ _ _ _ _ h1]

theorem fetchStage6_getCol_ne (df : DataFrame) (n : String)
    (h1 : n ≠ "lat") (h2 : n ≠ "lon") :
    (fetchStage6 df).getCol n = df.getCol n := by
  unfold fetchStage6
  cases hlat : df.colNames.find? (fun c => c == "lat" || c == "lat_y_4326" || c == "latitude") with
  | some lc =>
      simp only []
      cases hlon : ((df.setCol "lat" Dtype.number ((df.colData lc).map toNumericCell)).colNames).find?
          (fun c => c == "lon" || c == "long_x_4326" || c == "longitude" || c == "long") with
      | some lc2 =>
          simp only []
          rw [getCol_setCol_ne _ _ _ _ _ h2, getCol_setCol_ne _ _ _ _ _ h1]
      | none =>
          simp only [DataFrame.setScalar]
          rw [getCol_setCol_ne _ _ _ _ _ h2, getCol_setCol_ne _ _ _ _ _ h1]
  | none =>
      simp only [DataFrame.setScalar]
      cases hlon : ((df.setCol "lat" Dtype.obj (List.replicate df.nrows Cell.na)).colNames).find?
          (fun c => c == "lon" || c == "long_x_4326" || c == "longitude" || c == "long") with
      | some lc2 =>
          simp only []
          rw [getCol_setCol_ne _ _ _ _ _ h2, getCol_setCol_ne _ _ _ _ _ h1]
      | none =>
          simp only []
          rw [getCol_setCol_ne _ _ _ _ _ h2, getCol_setCol_ne _ _ _ _ _ h1]

theorem fetchStage7_getCol_ne (df : DataFrame) (n : String)
    (h1 : n ≠ "unit") (h2 : n ≠ "qc_flag") (h3 : n ≠ "station_type") :
    (fetchStage7 df).getCol n = df.getCol n := by
  unfold fetchStage7
  have step1 : ∀ d1 : DataFrame, d1.getCol n = df.getCol n →
      (match d1.getCol "qc_flag" with
        | some c => d1.setCol "qc_flag" c.dtype c.data
        | none => d1.setScalar "qc_flag" Dtype.number (Cell.num 0)).getCol n = df.getCol n := by
    intro d1 hd1
    cases hq : d1.getCol "qc_flag" with
    | some c => simp only []; rw [getCol_setCol_ne _ _ _ _ _ h2]; exact hd1
    | none =>
        simp only [DataFrame.setScalar]
        rw [getCol_setCol_ne _ _ _ _ _ h2]
        exact hd1
  have step2 : ∀ d2 : DataFrame, d2.getCol n = df.getCol n →
      (match (d2.colNames.filter fetchTypeMatch).head? with
        | some t =>
            match d2.getCol t with
            | some c => d2.setCol "station_type" c.dtype c.data
            | none => d2.setScalar "station_type" Dtype.obj Cell.na
        | none => d2.setScalar "station_type" Dtype.obj Cell.na).getCol n = df.getCol n := by
    intro d2 hd2
    cases ht : (d2.colNames.filter fetchTypeMatch).head? with
    | some t =>
        cases hg : d2.getCol t with
        | some c =>
            simp only []
            rw [hg]
            simp only []
            rw [getCol_setCol_ne _ _ _ _ _ h3]
            exact hd2
        | none =>
            simp only []
            rw [hg]
            simp only [DataFrame.setScalar]
            rw [getCol_setCol_ne _ _ _ _ _ h3]
            exact hd2
    | none =>
        simp only [DataFrame.setScalar]
        rw [getCol_setCol_ne _ _ _ _ _ h3]
        exact hd2
  cases hu : (df.colNames.filter fetchUnitMatch).head? with
  | some u =>
      simp only []
      exact step2 _ (step1 _ (by rw [getCol_setCol_ne _ _ _ _ _ h1]))
  | none =>
      simp only [DataFrame.setScalar]
      exact step2 _ (step1 _ (by rw [getCol_setCol_ne _ _ _ _ _ h1]))

theorem fetchStage2_hasCol_value (df : DataFrame) :
    (fetchStage2 df).hasCol "value" = true := by
  unfold fetchStage2
  cases hv : (df.colNames.filter fetchValueMatch).head? with
  | some v => simp only []; exact hasCol_setCol_self _ _ _ _
  | none =>
      cases hn : (df.cols.filter (fun c => c.dtype == Dtype.number)).head? with
      | some c => simp only []; exact hasCol_setCol_self _ _ _ _
      | none =>
          simp only [DataFrame.setScalar]
          exact hasCol_setCol_self _ _ _ _

theorem fetchStage3_hasCol_pollutant (df : DataFrame) :
    (fetchStage3 df).hasCol "pollutant" = true := by
  unfold fetchStage3
  cases hp3 : (df.colNames.filter fetchPolMatch).head? with
  | some v => simp only []; exact hasCol_setCol_self _ _ _ _
  | none =>
      simp only [DataFrame.setScalar]
      exact hasCol_setCol_self _ _ _ _

theorem fetchStage4_hasCol_station (df : DataFrame) :
    (fetchStage4 df).hasCol "station_id" = true := by
  unfold fetchStage4
  cases hs : (df.colNames.filter fetchStMatch).head? with
  | some v => simp only []; exact hasCol_setCol_self _ _ _ _
  | none =>
      simp only [DataFrame.setScalar]
      exact hasCol_setCol_self _ _ _ _

theorem fetchPreDrop_getCol_value (df0 : DataFrame) :
    (fetchPreDrop df0).getCol "value" =
      (fetchStage2 (fetchStage1 (lowerCols df0))).getCol "value" := by
  unfold fetchPreDrop
  rw [fetchStage7_getCol_ne _ _ (by decide) (by decide) (by decide),
    fetchStage6_getCol_ne _ _ (by decide) (by decide),
    fetchStage5_getCol_ne _ _ (by decide),
    fetchStage4_getCol_ne _ _ (by decide),
    fetchStage3_getCol_ne _ _ (by decide)]

theorem fetchPreDrop_getCol_pollutant (df0 : DataFrame) :
    (fetchPreDrop df0).getCol "pollutant" =
      (fetchStage3 (fetchStage2 (fetchStage1 (lowerCols df0)))).getCol "pollutant" := by
  unfold fetchPreDrop
  rw [fetchStage7_getCol_ne _ _ (by decide) (by decide) (by decide),
    fetchStage6_getCol_ne _ _ (by decide) (by decide),
    fetchStage5_getCol_ne _ _ (by decide),
    fetchStage4_getCol_ne _ _ (by decide)]

theorem fetchPreDrop_getCol_station (df0 : DataFrame) :
    (fetchPreDrop df0).getCol "station_id" =
      (fetchStage4 (fetchStage3 (fetchStage2 (fetchStage1 (lowerCols df0))))).getCol "station_id" := by
  unfold fetchPreDrop
  rw [fetchStage7_getCol_ne _ _ (by decide) (by decide) (by decide),
    fetchStage6_getCol_ne _ _ (by decide) (by decide),
    fetchStage5_getCol_ne _ _ (by decide)]

theorem fetchPreDrop_hasCol_value (df0 : DataFrame) :
    (fetchPreDrop df0).hasCol "value" = true := by
  unfold DataFrame.hasCol
  rw [fetchPreDrop_getCol_value]
  exact fetchStage2_hasCol_value _

theorem fetchPreDrop_hasCol_pollutant (df0 : DataFrame) :
    (fetchPreDrop df0).hasCol "pollutant" = true := by
  unfold DataFrame.hasCol
  rw [fetchPreDrop_getCol_pollutant]
  exact fetchStage3_hasCol_pollutant _

theorem fetchPreDrop_hasCol_station (df0 : DataFrame) :
    (fetchPreDrop df0).hasCol "station_id" = true := by
  unfold DataFrame.hasCol
  rw [fetchPreDrop_getCol_station]
  exact fetchStage4_hasCol_station _

theorem dropna_hasCol (df : DataFrame) (ss : List String) (n : String) :
    (df.dropnaAny ss).hasCol n = df.hasCol n := by
  unfold DataFrame.hasCol
  rw [dropna_getCol]
  cases df.getCol n <;> rfl

/-- The columns of the fetcher's normalizer output are exactly the canonical
list, for every input. -/
theorem fetchNormalize_colNames (df0 : DataFrame) :
    (fetchNormalize df0).colNames = fetchCanonical := by
  unfold fetchNormalize
  apply select_colNames
  intro n hn
  exact hasCol_setCol_mono _ _ _ _ _ (ensureCols_hasCol_of_mem _ _ _ hn)

/-- The columns of the dashboard's normalizer output are exactly `appWanted`,
whenever the normalizer returns. -/
theorem appNormalize_colNames (df0 : DataFrame) (out : DataFrame)
    (h : appNormalize df0 = some out) : out.colNames = appWanted := by
  unfold appNormalize at h
  cases hp : appPreDrop df0 with
  | none => rw [hp] at h; cases h
  | some d =>
      rw [hp] at h
      simp only [Option.map_some'] at h
      rw [← Option.some.inj h]
      apply select_colNames
      intro n hn
      exact ensureCols_hasCol_of_mem _ _ _ hn

/-- Tracking a non-`date` canonical column from after the `dropna` through to
the fetcher's output. -/
theorem fetchNormalize_getCol_eq (df0 : DataFrame) (n : String) (c : Column)
    (hmem : n ∈ fetchCanonical) (hne : n ≠ "date")
    (hc : ((fetchPreDrop df0).dropnaAny ["value", "pollutant", "station_id"]).getCol n = some c) :
    (fetchNormalize df0).getCol n = some c := by
  unfold fetchNormalize
  rw [select_getCol _ _ _
    (fun m hm => hasCol_setCol_mono _ _ _ _ _ (ensureCols_hasCol_of_mem _ _ _ hm)) hmem]
  rw [getCol_setCol_ne _ _ _ _ _ hne]
  exact ensureCols_getCol _ _ _ _ hc

theorem fetchNormalize_nrows (df0 : DataFrame) :
    (fetchNormalize df0).nrows =
      ((fetchPreDrop df0).dropnaAny ["value", "pollutant", "station_id"]).nrows := by
  unfold fetchNormalize
  rw [select_nrows, setCol_nrows, ensureCols_nrows]

theorem appValueStep_hasCol_value (df : DataFrame) (vc : List String) :
    (appValueStep df vc).hasCol "value" = true := by
  unfold appValueStep
  cases hv : vc.head? with
  | some v => simp only []; exact hasCol_setCol_self _ _ _ _
  | none =>
      cases hn : (df.cols.filter (fun c => c.dtype == Dtype.number)).head? with
      | some c => simp only []; exact hasCol_setCol_self _ _ _ _
      | none =>
          simp only [DataFrame.setScalar]
          exact hasCol_setCol_self _ _ _ _

theorem appValueStep_getCol_ne (df : DataFrame) (vc : List String) (n : String)
    (h : n ≠ "value") : (appValueStep df vc).getCol n = df.getCol n := by
  unfold appValueStep
  cases hv : vc.head? with
  | some v => simp only []; rw [getCol_setCol_ne _ _ _ _ _ h]
  | none =>
      cases hn : (df.cols.filter (fun c => c.dtype == Dtype.number)).head? with
      | some c => simp only []; rw [getCol_setCol_ne _ _ _ _ _ h]
      | none =>
          simp only [DataFrame.setScalar]
          rw [getCol_setCol_ne _ _ _ _ _ h]

theorem appDatetimeStep_getCol_ne (df : DataFrame) (dc : List String) (n : String)
    (h : n ≠ "datetime") : (appDatetimeStep df dc).getCol n = df.getCol n := by
  unfold appDatetimeStep
  cases hd : dc.head? with
  | some v => simp only []; rw [getCol_setCol_ne _ _ _ _ _ h]
  | none =>
      simp only [DataFrame.setScalar]
      rw [getCol_setCol_ne _ _ _ _ _ h]

theorem appPollStep_getCol_ne (df : DataFrame) (pc : List String) (d : DataFrame)
    (hd : appPollStep df pc = some d) (n : String) (h : n ≠ "pollutant") :
    d.getCol n = df.getCol n := by
  unfold appPollStep at hd
  cases hp : pc.head? with
  | some p =>
      rw [hp] at hd
      simp only [Option.some.injEq] at hd
      rw [← hd, getCol_setCol_ne _ _ _ _ _ h]
  | none =>
      rw [hp] at hd
      simp only [] at hd
      cases hg : df.getCol "inquinanti_aria_tipologia" with
      | some c =>
          rw [hg] at hd
          simp only [Option.some.injEq] at hd
          rw [← hd, getCol_setCol_ne _ _ _ _ _ h]
      | none =>
          rw [hg] at hd
          simp only [] at hd
          cases hg2 : df.getCol "nome" with
          | some c =>
              rw [hg2] at hd
              simp only [Option.some.injEq] at hd
              rw [← hd, getCol_setCol_ne _ _ _ _ _ h]
          | none => rw [hg2] at hd; cases hd

theorem appPollStep_hasCol_pollutant (df : DataFrame) (pc : List String)
    (d : DataFrame) (hd : appPollStep df pc = some d) :
    d.hasCol "pollutant" = true := by
  unfold appPollStep at hd
  cases hp : pc.head? with
  | some p =>
      rw [hp] at hd
      simp only [Option.some.injEq] at hd
      rw [← hd]
      exact hasCol_setCol_self _ _ _ _
  | none =>
      rw [hp] at hd
      simp only [] at hd
      cases hg : df.getCol "inquinanti_aria_tipologia" with
      | some c =>
          rw [hg] at hd
          simp only [Option.some.injEq] at hd
          rw [← hd]
          exact hasCol_setCol_self _ _ _ _
      | none =>
          rw [hg] at hd
          simp only [] at hd
          cases hg2 : df.getCol "nome" with
          | some c =>
              rw [hg2] at hd
              simp only [Option.some.injEq] at hd
              rw [← hd]
              exact hasCol_setCol_self _ _ _ _
          | none => rw [hg2] at hd; cases hd

theorem appStationStep_getCol_ne (df : DataFrame) (sc : List String) (n : String)
    (h1 : n ≠ "station_id") (h2 : n ≠ "station_name") :
    (appStationStep df sc).getCol n = df.getCol n := by
  unfold appStationStep
  cases hs : sc.head? with
  | some s0 => simp only []; rw [getCol_setCol_ne _ _ _ _ _ h1]
  | none =>
      by_cases hcn : df.hasCol "nomecentralina" = true
      · rw [if_pos hcn]
        rw [getCol_setCol_ne _ _ _ _ _ h1, getCol_setCol_ne _ _ _ _ _ h2]
      · rw [if_neg hcn]
        cases hg : df.getCol "id" with
        | some c => simp only []; rw [getCol_setCol_ne _ _ _ _ _ h1]
        | none =>
            simp only [DataFrame.setScalar]
            rw [getCol_setCol_ne _ _ _ _ _ h1]

theorem appYearStep_getCol_ne (df : DataFrame) (n : String)
    (h1 : n ≠ "date") (h2 : n ≠ "year") :
    (appYearStep df).getCol n = df.getCol n := by
  unfold appYearStep
  rw [getCol_setCol_ne _ _ _ _ _ h2, getCol_setCol_ne _ _ _ _ _ h1]

theorem appPreDrop_parts (df0 : DataFrame) (d : DataFrame)
    (hd : appPreDrop df0 = some d) :
    ∃ d', appPollStep
        (appValueStep
          (appDatetimeStep (lowerCols df0) ((lowerCols df0).colNames.filter appDateMatch))
          ((lowerCols df0).colNames.filter appValueMatch))
        ((lowerCols df0).colNames.filter appPolMatch) = some d' ∧
      d = appYearStep (appStationStep d' ((lowerCols df0).colNames.filter appStMatch)) := by
  unfold appPreDrop at hd
  simp only [] at hd
  cases hp : appPollStep
      (appValueStep
        (appDatetimeStep (lowerCols df0) ((lowerCols df0).colNames.filter appDateMatch))
        ((lowerCols df0).colNames.filter appValueMatch))
      ((lowerCols df0).colNames.filter appPolMatch) with
  | none => rw [hp] at hd; cases hd
  | some d' =>
      rw [hp] at hd
      simp only [Option.map_some', Option.some.injEq] at hd
      exact ⟨d', rfl, hd.symm⟩

theorem appPreDrop_hasCol_value (df0 : DataFrame) (d : DataFrame)
    (hd : appPreDrop df0 = some d) : d.hasCol "value" = true := by
  obtain ⟨d', hp, hde⟩ := appPreDrop_parts df0 d hd
  rw [hde]
  unfold DataFrame.hasCol
  rw [appYearStep_getCol_ne _ _ (by decide) (by decide),
    appStationStep_getCol_ne _ _ _ (by decide) (by decide),
    appPollStep_getCol_ne _ _ _ hp _ (by decide)]
  exact appValueStep_hasCol_value _ _

theorem appPreDrop_hasCol_pollutant (df0 : DataFrame) (d : DataFrame)
    (hd : appPreDrop df0 = some d) : d.hasCol "pollutant" = true := by
  obtain ⟨d', hp, hde⟩ := appPreDrop_parts df0 d hd
  rw [hde]
  unfold DataFrame.hasCol
  rw [appYearStep_getCol_ne _ _ (by decide) (by decide),
    appStationStep_getCol_ne _ _ _ (by decide) (by decide)]
  exact appPollStep_hasCol_pollutant _ _ _ hp

/-- Tracking a wanted column from after the dashboard's `dropna` through to
its output. -/
theorem appNormalize_getCol_eq (df0 : DataFrame) (d : DataFrame) (n : String)
    (c : Column) (hd : appPreDrop df0 = some d) (hmem : n ∈ appWanted)
    (hc : (d.dropnaAny ["value", "pollutant"]).getCol n = some c) :
    ∃ out, appNormalize df0 = some out ∧ out.getCol n = some c := by
  refine ⟨_, by unfold appNormalize; rw [hd]; rfl, ?_⟩
  simp only []
  rw [select_getCol _ _ _ (fun m hm => ensureCols_hasCol_of_mem _ _ _ hm) hmem]
  exact ensureCols_getCol _ _ _ _ hc

theorem appNormalize_nrows (df0 : DataFrame) (d : DataFrame)
    (hd : appPreDrop df0 = some d) :
    ∃ out, appNormalize df0 = some out ∧
      out.nrows = (d.dropnaAny ["value", "pollutant"]).nrows := by
  refine ⟨_, by unfold appNormalize; rw [hd]; rfl, ?_⟩
  simp only []
  rw [select_nrows, ensureCols_nrows]

/-! ### Claim theorems -/

/-- Claim C1, counterexample: the dashboard's `normalize_measurements` output
on a typical input does *not* contain the `unit`, `lat` or `lon` columns, so
the claim that both normalizers always emit the full canonical schema
(date, station_id, pollutant, value, unit, lat, lon) is false. -/
theorem c1_counterexample :
    (appNormalize exMeas).isSome = true ∧
    ((appNormalize exMeas).getD emptyDF).colNames.contains "unit" = false ∧
    ((appNormalize exMeas).getD emptyDF).colNames.contains "lat" = false ∧
    ((appNormalize exMeas).getD emptyDF).colNames.contains "lon" = false := by
  decide

/-- Claim C1, amended: each normalizer coerces every input into its own fixed
column list regardless of the input columns.  The fetcher's canonical list
contains all of date, station_id, pollutant, value, unit, lat and lon; the
dashboard's list contains date, station_id, pollutant and value but not
unit, lat or lon. -/
theorem c1_canonical_columns :
    (∀ df : DataFrame, (fetchNormalize df).colNames = fetchCanonical) ∧
    (∀ (df out : DataFrame), appNormalize df = some out → out.colNames = appWanted) ∧
    (∀ n ∈ ["date", "station_id", "pollutant", "value", "unit", "lat", "lon"],
      n ∈ fetchCanonical) ∧
    (∀ n ∈ ["date", "station_id", "pollutant", "value"], n ∈ appWanted) ∧
    "unit" ∉ appWanted ∧ "lat" ∉ appWanted ∧ "lon" ∉ appWanted :=
  ⟨fetchNormalize_colNames, appNormalize_colNames,
    by decide, by decide, by decide, by decide, by decide⟩

/-- Claim C1, witness: the amended theorem applied to the concrete frame
`exMeas`. -/
theorem c1_witness :
    (fetchNormalize exMeas).colNames = fetchCanonical ∧
    ((appNormalize exMeas).getD emptyDF).colNames = appWanted := by
  constructor
  · exact c1_canonical_columns.1 exMeas
  · exact c1_canonical_columns.2.1 exMeas _ (by decide)

/-- Claim C9: every row of the fetcher normalizer's output has non-missing
value, pollutant and station_id; the dashboard normalizer guarantees
non-missing value and pollutant only, and can emit rows whose station_id is
missing (witnessed by `exNoStation`). -/
theorem c9_essential_fields :
    (∀ (df : DataFrame) (i : Nat), i < (fetchNormalize df).nrows →
      ((fetchNormalize df).colData "value").getD i Cell.na ≠ Cell.na ∧
      ((fetchNormalize df).colData "pollutant").getD i Cell.na ≠ Cell.na ∧
      ((fetchNormalize df).colData "station_id").getD i Cell.na ≠ Cell.na) ∧
    (∀ (df out : DataFrame), appNormalize df = some out → ∀ i, i < out.nrows →
      (out.colData "value").getD i Cell.na ≠ Cell.na ∧
      (out.colData "pollutant").getD i Cell.na ≠ Cell.na) ∧
    ((appNormalize exNoStation).isSome = true ∧
      0 < ((appNormalize exNoStation).getD emptyDF).nrows ∧
      (((appNormalize exNoStation).getD emptyDF).colData "station_id").getD 0 Cell.na
        = Cell.na) := by
  refine ⟨?_, ?_, by decide⟩
  · intro df i hi
    have hrows := fetchNormalize_nrows df
    have hi' : i < ((fetchPreDrop df).dropnaAny ["value", "pollutant", "station_id"]).nrows := by
      rw [← hrows]; exact hi
    refine ⟨?_, ?_, ?_⟩
    · obtain ⟨c, hc⟩ := Option.isSome_iff_exists.mp
        (by rw [dropna_hasCol]; exact fetchPreDrop_hasCol_value df :
          ((fetchPreDrop df).dropnaAny ["value", "pollutant", "station_id"]).hasCol "value" = true)
      rw [colData_of_getCol (fetchNormalize_getCol_eq df "value" c (by decide) (by decide) hc)]
      have hkept := dropna_kept (fetchPreDrop df) ["value", "pollutant", "station_id"]
        "value" (by decide) i hi'
      rwa [colData_of_getCol hc] at hkept
    · obtain ⟨c, hc⟩ := Option.isSome_iff_exists.mp
        (by rw [dropna_hasCol]; exact fetchPreDrop_hasCol_pollutant df :
          ((fetchPreDrop df).dropnaAny ["value", "pollutant", "station_id"]).hasCol "pollutant" = true)
      rw [colData_of_getCol (fetchNormalize_getCol_eq df "pollutant" c (by decide) (by decide) hc)]
      have hkept := dropna_kept (fetchPreDrop df) ["value", "pollutant", "station_id"]
        "pollutant" (by decide) i hi'
      rwa [colData_of_getCol hc] at hkept
    · obtain ⟨c, hc⟩ := Option.isSome_iff_exists.mp
        (by rw [dropna_hasCol]; exact fetchPreDrop_hasCol_station df :
          ((fetchPreDrop df).dropnaAny ["value", "pollutant", "station_id"]).hasCol "station_id" = true)
      rw [colData_of_getCol (fetchNormalize_getCol_eq df "station_id" c (by decide) (by decide) hc)]
      have hkept := dropna_kept (fetchPreDrop df) ["value", "pollutant", "station_id"]
        "station_id" (by decide) i hi'
      rwa [colData_of_getCol hc] at hkept
  · intro df out hout i hi
    cases hp : appPreDrop df with
    | none =>
        exfalso
        unfold appNormalize at hout
        rw [hp] at hout
        cases hout
    | some d =>
        obtain ⟨out', hout', hnr⟩ := appNormalize_nrows df d hp
        have houteq : out' = out := Option.some.inj (hout'.symm.trans hout)
        have hi' : i < (d.dropnaAny ["value", "pollutant"]).nrows := by
          rw [← hnr, houteq]; exact hi
        constructor
        · obtain ⟨c, hc⟩ := Option.isSome_iff_exists.mp
            (by rw [dropna_hasCol]; exact appPreDrop_hasCol_value df d hp :
              (d.dropnaAny ["value", "pollutant"]).hasCol "value" = true)
          obtain ⟨out2, hout2, hgc⟩ := appNormalize_getCol_eq df d "value" c hp (by decide) hc
          have : out2 = out := Option.some.inj (hout2.symm.trans hout)
          rw [← this, colData_of_getCol hgc]
          have hkept := dropna_kept d ["value", "pollutant"] "value" (by decide) i hi'
          rwa [colData_of_getCol hc] at hkept
        · obtain ⟨c, hc⟩ := Option.isSome_iff_exists.mp
            (by rw [dropna_hasCol]; exact appPreDrop_hasCol_pollutant df d hp :
              (d.dropnaAny ["value", "pollutant"]).hasCol "pollutant" = true)
          obtain ⟨out2, hout2, hgc⟩ := appNormalize_getCol_eq df d "pollutant" c hp (by decide) hc
          have : out2 = out := Option.some.inj (hout2.symm.trans hout)
          rw [← this, colData_of_getCol hgc]
          have hkept := dropna_kept d ["value", "pollutant"] "pollutant" (by decide) i hi'
          rwa [colData_of_getCol hc] at hkept

/-- Claim C9, witness: the non-missing guarantees evaluated on the concrete
frame `exMeas` at row 0. -/
theorem c9_witness :
    (((fetchNormalize exMeas).colData "value").getD 0 Cell.na ≠ Cell.na ∧
      ((fetchNormalize exMeas).colData "pollutant").getD 0 Cell.na ≠ Cell.na ∧
      ((fetchNormalize exMeas).colData "station_id").getD 0 Cell.na ≠ Cell.na) ∧
    ((((appNormalize exMeas).getD emptyDF).colData "value").getD 0 Cell.na ≠ Cell.na ∧
      (((appNormalize exMeas).getD emptyDF).colData "pollutant").getD 0 Cell.na ≠ Cell.na) := by
  constructor
  · exact c9_essential_fields.1 exMeas 0 (by decide)
  · exact c9_essential_fields.2.1 exMeas _ (by decide) 0 (by decide)

/-- Claim C7: both normalizers lowercase the column names as their first
step, so normalizing is invariant under changing the letter case of the
input's column names (same frame up to `lowerCols`). -/
theorem c7_case_insensitive (df1 df2 : DataFrame)
    (h : lowerCols df1 = lowerCols df2) :
    fetchNormalize df1 = fetchNormalize df2 ∧ appNormalize df1 = appNormalize df2 := by
  constructor
  · unfold fetchNormalize fetchPreDrop
    rw [h]
  · unfold appNormalize appPreDrop
    rw [h]

/-- Claim C7, witness: `exMeas` and `exMeasCased` differ only in the case of
their column names and normalize identically. -/
theorem c7_witness :
    fetchNormalize exMeas = fetchNormalize exMeasCased ∧
    appNormalize exMeas = appNormalize exMeasCased :=
  c7_case_insensitive exMeas exMeasCased (by decide)

/-- From a keyword scan with at least two matches, the head of the filtered
candidate list is the first match in column order. -/
theorem first_match_of_two {p : String → Bool} {l : List String}
    (h2 : 2 ≤ (l.filter p).length) :
    ∃ k, firstMatchAt p l k ∧ (l.filter p).head? = some (l.getD k "") := by
  have hne : (l.filter p) ≠ [] := by
    intro h
    rw [h] at h2
    simp at h2
  obtain ⟨x, hx⟩ : ∃ x, (l.filter p).head? = some x := by
    cases hh : (l.filter p).head? with
    | none => exact absurd (List.head?_eq_none_iff.mp hh) hne
    | some x => exact ⟨x, rfl⟩
  have hfind : l.find? p = some x := by rw [← filter_head?_eq_find?]; exact hx
  obtain ⟨k, hk, hgd, hp, hmin⟩ := find?_first p "" l x hfind
  exact ⟨k, ⟨hk, hp, hmin⟩, by rw [hx]; exact congrArg some hgd.symm⟩

/-- Claim C2: whenever at least two (lowercased) input column names match
the keyword set of the same semantic role, each normalizer's candidate list
for that role starts with the first matching column in the dataframe's
column order — no earlier column matches — so all later matches are
ignored.  This holds for all four roles of both normalizers, even though the
fetcher scans a frame already extended by its earlier assignments. -/
theorem c2_first_match_wins (r : Role) (df : DataFrame) :
    (2 ≤ (((lowerCols df).colNames).filter (fetchRoleMatch r)).length →
      ∃ k, firstMatchAt (fetchRoleMatch r) ((lowerCols df).colNames) k ∧
        (fetchRoleCands r df).head? = some (((lowerCols df).colNames).getD k "")) ∧
    (2 ≤ (((lowerCols df).colNames).filter (appRoleMatch r)).length →
      ∃ k, firstMatchAt (appRoleMatch r) ((lowerCols df).colNames) k ∧
        (appRoleCands r df).head? = some (((lowerCols df).colNames).getD k "")) := by
  have hfetch : fetchRoleCands r df =
      ((lowerCols df).colNames).filter (fetchRoleMatch r) := by
    cases r with
    | date => rfl
    | value =>
        show (fetchStage1 (lowerCols df)).colNames.filter fetchValueMatch = _
        rw [fetchStage1_filter _ _ (by decide) (by decide)]
        rfl
    | pollutant =>
        show (fetchStage2 (fetchStage1 (lowerCols df))).colNames.filter fetchPolMatch = _
        rw [fetchStage2_filter _ _ (by decide),
          fetchStage1_filter _ _ (by decide) (by decide)]
        rfl
    | station =>
        show (fetchStage3 (fetchStage2 (fetchStage1 (lowerCols df)))).colNames.filter
          fetchStMatch = _
        rw [fetchStage3_filter _ _ (by decide), fetchStage2_filter _ _ (by decide),
          fetchStage1_filter _ _ (by decide) (by decide)]
        rfl
  constructor
  · intro h2
    obtain ⟨k, hfm, hhead⟩ := first_match_of_two h2
    exact ⟨k, hfm, by rw [hfetch]; exact hhead⟩
  · intro h2
    obtain ⟨k, hfm, hhead⟩ := first_match_of_two h2
    exact ⟨k, hfm, hhead⟩

/-- Claim C2, witness: the value role on a frame carrying two value-keyword
columns (`valore` before `value`): both candidate lists start with the first
match. -/
theorem c2_witness :
    (∃ k, firstMatchAt (fetchRoleMatch Role.value) ((lowerCols exDupCols).colNames) k ∧
      (fetchRoleCands Role.value exDupCols).head? =
        some (((lowerCols exDupCols).colNames).getD k "")) ∧
    (∃ k, firstMatchAt (appRoleMatch Role.value) ((lowerCols exDupCols).colNames) k ∧
      (appRoleCands Role.value exDupCols).head? =
        some (((lowerCols exDupCols).colNames).getD k "")) :=
  ⟨(c2_first_match_wins Role.value exDupCols).1 (by decide),
   (c2_first_match_wins Role.value exDupCols).2 (by decide)⟩

/-- Claim C4: the fetcher's flexible JSON reader tries exactly the chain
direct read → records-oriented read → `json_normalize` → DataFrame-from-list,
returns the result of the first strategy that succeeds, and raises only when
every strategy (including the underlying `json.load`) fails; the dashboard's
reader implements only the first two strategies and raises when both fail. -/
theorem c4_flexible_reader (s : JsonSource) (d : DataFrame) (j : JsonObject) :
    (s.direct = some d → fetchReadJson s = some d) ∧
    (s.direct = none → s.records = some d → fetchReadJson s = some d) ∧
    (s.direct = none → s.records = none → s.loaded = some j →
      j.normalized = some d → fetchReadJson s = some d) ∧
    (s.direct = none → s.records = none → s.loaded = some j →
      j.normalized = none → fetchReadJson s = j.listDF) ∧
    (fetchReadJson s = none ↔ (s.direct = none ∧ s.records = none ∧
      (∀ j', s.loaded = some j' → j'.normalized = none ∧ j'.listDF = none))) ∧
    (appReadJson s = some d ↔
      (s.direct = some d ∨ (s.direct = none ∧ s.records = some d))) := by
  obtain ⟨dir, rec, lo⟩ := s
  refine ⟨?_, ?_, ?_, ?_, ?_, ?_⟩
  · intro h1
    simp only [] at h1
    subst h1
    simp [fetchReadJson]
  · intro h1 h2
    simp only [] at h1 h2
    subst h1
    subst h2
    simp [fetchReadJson]
  · intro h1 h2 h3 h4
    simp only at h1 h2 h3
    subst h1; subst h2; subst h3
    simp [fetchReadJson, h4]
  · intro h1 h2 h3 h4
    simp only at h1 h2 h3
    subst h1; subst h2; subst h3
    simp [fetchReadJson, h4]
  · cases dir with
    | some d0 => simp [fetchReadJson]
    | none =>
        cases rec with
        | some d0 => simp [fetchReadJson]
        | none =>
            cases lo with
            | none => simp [fetchReadJson]
            | some j0 =>
                cases hn : j0.normalized with
                | some d0 => simp [fetchReadJson, hn]
                | none =>
                    cases hl : j0.listDF with
                    | some d0 => simp [fetchReadJson, hn, hl]
                    | none => simp [fetchReadJson, hn, hl]
  · cases dir with
    | some d0 => simp [appReadJson]
    | none => simp [appReadJson]

/-- Claim C4, witness: the chain evaluated on concrete sources for each
branch (direct success; records fallback; normalize fallback; list fallback;
total failure; and the dashboard's two-strategy reader). -/
theorem c4_witness :
    fetchReadJson ⟨some exMeas, none, none⟩ = some exMeas ∧
    fetchReadJson ⟨none, some exMeas, none⟩ = some exMeas ∧
    fetchReadJson ⟨none, none, some ⟨some exMeas, none⟩⟩ = some exMeas ∧
    fetchReadJson ⟨none, none, some ⟨none, some exMeas⟩⟩ = some exMeas ∧
    fetchReadJson ⟨none, none, none⟩ = none ∧
    appReadJson ⟨none, some exMeas, none⟩ = some exMeas :=
  ⟨(c4_flexible_reader ⟨some exMeas, none, none⟩ exMeas ⟨none, none⟩).1 rfl,
   (c4_flexible_reader ⟨none, some exMeas, none⟩ exMeas ⟨none, none⟩).2.1 rfl rfl,
   (c4_flexible_reader ⟨none, none, some ⟨some exMeas, none⟩⟩ exMeas
     ⟨some exMeas, none⟩).2.2.1 rfl rfl rfl rfl,
   (c4_flexible_reader ⟨none, none, some ⟨none, some exMeas⟩⟩ exMeas
     ⟨none, some exMeas⟩).2.2.2.1 rfl rfl rfl rfl,
   (c4_flexible_reader ⟨none, none, none⟩ exMeas ⟨none, none⟩).2.2.2.2.1.mpr
     ⟨rfl, rfl, fun j' h => by cases h⟩,
   (c4_flexible_reader ⟨none, some exMeas, none⟩ exMeas ⟨none, none⟩).2.2.2.2.2.mpr
     (Or.inr ⟨rfl, rfl⟩)⟩

/-! ### Invariants of the normalized datetime/date columns (for C6) -/

theorem toDatetimeCell_range (y : Cell) :
    toDatetimeCell y = Cell.na ∨ ∃ q, toDatetimeCell y = Cell.dt q := by
  cases y with
  | na => exact Or.inl rfl
  | dt q => exact Or.inr ⟨q, rfl⟩
  | num q => exact Or.inr ⟨q, rfl⟩
  | str s =>
      cases hp : parseNum s with
      | some q => exact Or.inr ⟨q, by simp [toDatetimeCell, hp]⟩
      | none => exact Or.inl (by simp [toDatetimeCell, hp])

theorem astypeStrCell_range (y : Cell) : ∃ s, astypeStrCell y = Cell.str s := by
  cases y with
  | na => exact ⟨"nan", rfl⟩
  | str s => exact ⟨s, rfl⟩
  | num q => exact ⟨toString q, rfl⟩
  | dt q => exact ⟨toString q, rfl⟩

theorem getD_mem_or_default {α} (l : List α) (i : Nat) (d : α) :
    l.getD i d = d ∨ l.getD i d ∈ l := by
  by_cases h : i < l.length
  · right
    rw [List.getD_eq_getElem _ _ h]
    exact List.getElem_mem _
  · left
    exact List.getD_eq_default _ _ (by simpa using Nat.le_of_not_lt h)

theorem fetchStage1_getCol_datetime (df : DataFrame) :
    ∃ dd, (fetchStage1 df).getCol "datetime" = some ⟨"datetime", Dtype.datetime, dd⟩ ∧
      ∀ x ∈ dd, x = Cell.na ∨ ∃ q, x = Cell.dt q := by
  unfold fetchStage1
  cases hd : (df.colNames.filter fetchDateMatch).head? with
  | some dcol =>
      refine ⟨(df.colData dcol).map toDatetimeCell, ?_, ?_⟩
      · simp only []
        rw [getCol_setCol_ne _ _ _ _ _ (by decide)]
        exact getCol_setCol_self _ _ _ _
      · intro x hx
        obtain ⟨y, _, hxy⟩ := List.mem_map.mp hx
        rw [← hxy]
        exact toDatetimeCell_range y
  | none =>
      by_cases hy : (df.hasCol "year" && df.hasCol "month" && df.hasCol "day") = true
      · simp only [hy, if_true]
        refine ⟨mkYMD df.nrows (df.colData "year") (df.colData "month") (df.colData "day"),
          ?_, ?_⟩
        · rw [getCol_setCol_ne _ _ _ _ _ (by decide)]
          exact getCol_setCol_self _ _ _ _
        · intro x hx
          obtain ⟨i, _, hxy⟩ := List.mem_map.mp hx
          rw [← hxy]
          cases (df.colData "year").getD i Cell.na <;>
            cases (df.colData "month").getD i Cell.na <;>
              cases (df.colData "day").getD i Cell.na <;>
                simp [mkYMD]
      · simp only [hy]
        rw [if_neg (by simp [hy])]
        refine ⟨List.replicate df.nrows Cell.na, ?_, ?_⟩
        · unfold DataFrame.setScalar
          rw [getCol_setCol_ne _ _ _ _ _ (by decide)]
          exact getCol_setCol_self _ _ _ _
        · intro x hx
          exact Or.inl (List.eq_of_mem_replicate hx)

theorem fetchPreDrop_getCol_datetime (df0 : DataFrame) :
    ∃ dd, (fetchPreDrop df0).getCol "datetime" = some ⟨"datetime", Dtype.datetime, dd⟩ ∧
      ∀ x ∈ dd, x = Cell.na ∨ ∃ q, x = Cell.dt q := by
  obtain ⟨dd, hdd, hprop⟩ := fetchStage1_getCol_datetime (lowerCols df0)
  refine ⟨dd, ?_, hprop⟩
  unfold fetchPreDrop
  rw [fetchStage7_getCol_ne _ _ (by decide) (by decide) (by decide),
    fetchStage6_getCol_ne _ _ (by decide) (by decide),
    fetchStage5_getCol_ne _ _ (by decide),
    fetchStage4_getCol_ne _ _ (by decide),
    fetchStage3_getCol_ne _ _ (by decide),
    fetchStage2_getCol_ne _ _ (by decide)]
  exact hdd

/-- The datetime column of the fetcher's output: datetime dtype, cells all
missing or datetimes. -/
theorem fetchNormalize_getCol_datetime (df0 : DataFrame) :
    ∃ dd, (fetchNormalize df0).getCol "datetime" = some ⟨"datetime", Dtype.datetime, dd⟩ ∧
      ∀ x ∈ dd, x = Cell.na ∨ ∃ q, x = Cell.dt q := by
  obtain ⟨dd, hdd, hprop⟩ := fetchPreDrop_getCol_datetime df0
  have hdrop := dropna_getCol (fetchPreDrop df0) ["value", "pollutant", "station_id"]
    "datetime"
  rw [hdd] at hdrop
  simp only [Option.map_some'] at hdrop
  refine ⟨_, fetchNormalize_getCol_eq df0 "datetime" _ (by decide) (by decide) hdrop, ?_⟩
  intro x hx
  obtain ⟨i, _, hxy⟩ := List.mem_map.mp hx
  rcases getD_mem_or_default dd i Cell.na with hdef | hmem
  · rw [← hxy, hdef]
    exact Or.inl rfl
  · rw [← hxy]
    exact hprop _ hmem

theorem fetchStage1_hasCol_date (df : DataFrame) :
    (fetchStage1 df).hasCol "date" = true := by
  unfold fetchStage1
  cases hd : (df.colNames.filter fetchDateMatch).head? with
  | some dcol => simp only []; exact hasCol_setCol_self _ _ _ _
  | none =>
      by_cases hy : (df.hasCol "year" && df.hasCol "month" && df.hasCol "day") = true
      · simp only [hy, if_true]
        exact hasCol_setCol_self _ _ _ _
      · simp only [hy]
        rw [if_neg (by simp [hy])]
        exact hasCol_setCol_self _ _ _ _

theorem fetchPreDrop_hasCol_date (df0 : DataFrame) :
    (fetchPreDrop df0).hasCol "date" = true := by
  unfold fetchPreDrop DataFrame.hasCol
  rw [fetchStage7_getCol_ne _ _ (by decide) (by decide) (by decide),
    fetchStage6_getCol_ne _ _ (by decide) (by decide),
    fetchStage5_getCol_ne _ _ (by decide),
    fetchStage4_getCol_ne _ _ (by decide),
    fetchStage3_getCol_ne _ _ (by decide),
    fetchStage2_getCol_ne _ _ (by decide)]
  exact fetchStage1_hasCol_date _

/-- The date column of the fetcher's output: object dtype, all cells
strings, and as many cells as surviving rows. -/
theorem fetchNormalize_getCol_date (df0 : DataFrame) :
    ∃ dd, (fetchNormalize df0).getCol "date" = some ⟨"date", Dtype.obj, dd⟩ ∧
      (∀ x ∈ dd, ∃ s, x = Cell.str s) ∧
      dd.length =
        ((fetchPreDrop df0).dropnaAny ["value", "pollutant", "station_id"]).nrows := by
  obtain ⟨c0, hc0⟩ := Option.isSome_iff_exists.mp (fetchPreDrop_hasCol_date df0)
  have hdropcol := dropna_getCol (fetchPreDrop df0) ["value", "pollutant", "station_id"]
    "date"
  rw [hc0] at hdropcol
  simp only [Option.map_some'] at hdropcol
  have hens := ensureCols_getCol fetchCanonical _ "date" _ hdropcol
  have hcd := colData_of_getCol hens
  have hlen : (((List.range (fetchPreDrop df0).nrows).filter
      ((fetchPreDrop df0).keepRow ["value", "pollutant", "station_id"])).map
      (fun i => c0.data.getD i Cell.na)).length =
      ((fetchPreDrop df0).dropnaAny ["value", "pollutant", "station_id"]).nrows := by
    rw [List.length_map, dropna_nrows]
  unfold fetchNormalize
  rw [select_getCol _ _ _
    (fun m hm => hasCol_setCol_mono _ _ _ _ _ (ensureCols_hasCol_of_mem _ _ _ hm))
    (by decide)]
  refine ⟨_, getCol_setCol_self _ _ _ _, ?_, ?_⟩
  · intro x hx
    obtain ⟨y, _, hxy⟩ := List.mem_map.mp hx
    rw [← hxy]
    exact astypeStrCell_range y
  · rw [List.length_map, hcd]
    simp only []
    exact hlen

theorem find?_beq_self_of_mem : ∀ (l : List String) (n : String), n ∈ l →
    l.find? (fun m => m == n) = some n
  | [], n, h => absurd h (List.not_mem_nil n)
  | a :: l, n, h => by
      by_cases ha : a = n
      · subst ha
        exact List.find?_cons_of_pos _ (by simp)
      · rw [List.find?_cons_of_neg _ (by simp [ha])]
        rcases List.mem_cons.mp h with he | hl
        · exact absurd he.symm ha
        · exact find?_beq_self_of_mem l n hl

theorem map_name_mk (f : String → Column) (hf : ∀ n, (f n).name = n) :
    ∀ names : List String, (names.map f).map (fun c => c.name) = names
  | [] => rfl
  | n :: ns => by simp [hf n, map_name_mk f hf ns]

theorem concat_colNames (a b : DataFrame) :
    (concatDF a b).colNames =
      a.colNames ++ b.colNames.filter (fun n => !(a.colNames.contains n)) := by
  unfold concatDF DataFrame.colNames
  simp only []
  exact map_name_mk _ (fun n => rfl) _

theorem concat_getCol_both (a b : DataFrame) (n : String) (ca cb : Column)
    (hca : a.getCol n = some ca) (hcb : b.getCol n = some cb) :
    (concatDF a b).getCol n = some ⟨n,
      if ca.dtype == cb.dtype then ca.dtype else Dtype.obj,
      ((List.range a.nrows).map (fun i => ca.data.getD i Cell.na)) ++
        ((List.range b.nrows).map (fun i => cb.data.getD i Cell.na))⟩ := by
  have hmem : n ∈ a.colNames ++ b.colNames.filter (fun m => !(a.colNames.contains m)) :=
    List.mem_append.mpr (Or.inl ((hasCol_iff_mem a n).mp
      (by unfold DataFrame.hasCol; rw [hca]; rfl)))
  have hfind := find?_beq_self_of_mem
    (a.colNames ++ b.colNames.filter (fun m => !(a.colNames.contains m))) n hmem
  unfold concatDF DataFrame.getCol
  simp only []
  rw [List.find?_map]
  show Option.map _ ((a.colNames ++ b.colNames.filter
    (fun m => !(a.colNames.contains m))).find? (fun m => m == n)) = _
  rw [hfind]
  simp only [Option.map_some']
  have hca2 : List.find? (fun c => c.name == n) a.cols = some ca := hca
  have hcb2 : List.find? (fun c => c.name == n) b.cols = some cb := hcb
  rw [hca2, hcb2]

/-- Claim C6: on a successful run, `build_db` writes the two canonical CSVs
and a snapshot holding exactly the two tables `measurements` and `stations`,
whose contents are the concatenation of the two normalized measurement
frames and the normalized stations frame; the two cleanup assignments after
the concat are no-ops, and the result is independent of any pre-existing
snapshot (the old file is removed and rebuilt). -/
theorem c6_persistence (fs fs' : Store) (df1 df2 sraw : DataFrame) :
    (buildDb fs df1 df2 sraw).csvOut =
      some (concatDF (fetchNormalize df1) (fetchNormalize df2)) ∧
    (buildDb fs df1 df2 sraw).stationsOut = some (fetchNormalizeStations sraw) ∧
    (buildDb fs df1 df2 sraw).dbOut = some
      [("measurements", concatDF (fetchNormalize df1) (fetchNormalize df2)),
       ("stations", fetchNormalizeStations sraw)] ∧
    buildDb fs df1 df2 sraw = buildDb fs' df1 df2 sraw := by
  obtain ⟨d1, hd1, hp1⟩ := fetchNormalize_getCol_datetime df1
  obtain ⟨d2, hd2, hp2⟩ := fetchNormalize_getCol_datetime df2
  obtain ⟨e1, he1, hq1⟩ := fetchNormalize_getCol_date df1
  obtain ⟨e2, he2, hq2⟩ := fetchNormalize_getCol_date df2
  have hAnames : (concatDF (fetchNormalize df1) (fetchNormalize df2)).colNames =
      fetchCanonical := by
    rw [concat_colNames, fetchNormalize_colNames, fetchNormalize_colNames]
    decide
  have hnodup : (concatDF (fetchNormalize df1) (fetchNormalize df2)).colNames.Nodup := by
    rw [hAnames]
    decide
  have hAdt := concat_getCol_both (fetchNormalize df1) (fetchNormalize df2)
    "datetime" _ _ hd1 hd2
  simp only [] at hAdt
  rw [show (if (Dtype.datetime == Dtype.datetime) = true then Dtype.datetime else Dtype.obj)
    = Dtype.datetime from by decide] at hAdt
  have hAdtprop : ∀ x ∈ ((List.range (fetchNormalize df1).nrows).map
        (fun i => d1.getD i Cell.na)) ++
      ((List.range (fetchNormalize df2).nrows).map (fun i => d2.getD i Cell.na)),
      x = Cell.na ∨ ∃ q, x = Cell.dt q := by
    intro x hx
    rcases List.mem_append.mp hx with hx1 | hx2
    · obtain ⟨i, _, hxy⟩ := List.mem_map.mp hx1
      rcases getD_mem_or_default d1 i Cell.na with hdef | hmem
      · rw [← hxy, hdef]; exact Or.inl rfl
      · rw [← hxy]; exact hp1 _ hmem
    · obtain ⟨i, _, hxy⟩ := List.mem_map.mp hx2
      rcases getD_mem_or_default d2 i Cell.na with hdef | hmem
      · rw [← hxy, hdef]; exact Or.inl rfl
      · rw [← hxy]; exact hp2 _ hmem
  have hstep1 : (concatDF (fetchNormalize df1) (fetchNormalize df2)).setCol "datetime"
      Dtype.datetime
      (((concatDF (fetchNormalize df1) (fetchNormalize df2)).colData "datetime").map
        toDatetimeCell) =
      concatDF (fetchNormalize df1) (fetchNormalize df2) := by
    have hcd := colData_of_getCol hAdt
    have hmapid : (((concatDF (fetchNormalize df1) (fetchNormalize df2)).colData
        "datetime").map toDatetimeCell) =
        (concatDF (fetchNormalize df1) (fetchNormalize df2)).colData "datetime" := by
      rw [hcd]
      rw [List.map_congr_left (fun x hx => ?_), List.map_id]
      rcases hAdtprop x hx with hna | ⟨q, hq⟩
      · rw [hna]; rfl
      · rw [hq]; rfl
    rw [hmapid]
    apply setCol_eq_self _ _ _ _ hnodup
    rw [hcd]
    rw [hAdt]
  have hAdate := concat_getCol_both (fetchNormalize df1) (fetchNormalize df2)
    "date" _ _ he1 he2
  simp only [] at hAdate
  rw [show (if (Dtype.obj == Dtype.obj) = true then Dtype.obj else Dtype.obj)
    = Dtype.obj from by decide] at hAdate
  have hAdateprop : ∀ x ∈ ((List.range (fetchNormalize df1).nrows).map
        (fun i => e1.getD i Cell.na)) ++
      ((List.range (fetchNormalize df2).nrows).map (fun i => e2.getD i Cell.na)),
      ∃ s, x = Cell.str s := by
    intro x hx
    rcases List.mem_append.mp hx with hx1 | hx2
    · obtain ⟨i, hi, hxy⟩ := List.mem_map.mp hx1
      have hilt : i < e1.length := by
        rw [hq1.2, ← fetchNormalize_nrows]
        exact List.mem_range.mp hi
      rw [← hxy, List.getD_eq_getElem _ _ hilt]
      exact hq1.1 _ (List.getElem_mem _)
    · obtain ⟨i, hi, hxy⟩ := List.mem_map.mp hx2
      have hilt : i < e2.length := by
        rw [hq2.2, ← fetchNormalize_nrows]
        exact List.mem_range.mp hi
      rw [← hxy, List.getD_eq_getElem _ _ hilt]
      exact hq2.1 _ (List.getElem_mem _)
  have hstep2 : (concatDF (fetchNormalize df1) (fetchNormalize df2)).setCol "date"
      Dtype.obj
      (((concatDF (fetchNormalize df1) (fetchNormalize df2)).colData "date").map
        astypeStrCell) =
      concatDF (fetchNormalize df1) (fetchNormalize df2) := by
    have hcd := colData_of_getCol hAdate
    have hmapid : (((concatDF (fetchNormalize df1) (fetchNormalize df2)).colData
        "date").map astypeStrCell) =
        (concatDF (fetchNormalize df1) (fetchNormalize df2)).colData "date" := by
      rw [hcd]
      rw [List.map_congr_left (fun x hx => ?_), List.map_id]
      obtain ⟨s, hs⟩ := hAdateprop x hx
      rw [hs]
      rfl
    rw [hmapid]
    apply setCol_eq_self _ _ _ _ hnodup
    rw [hcd]
    rw [hAdate]
  have hbody : ∀ g : Store, buildDb g df1 df2 sraw =
      ⟨some (concatDF (fetchNormalize df1) (fetchNormalize df2)),
       some (fetchNormalizeStations sraw),
       some [("measurements", concatDF (fetchNormalize df1) (fetchNormalize df2)),
             ("stations", fetchNormalizeStations sraw)]⟩ := by
    intro g
    unfold buildDb
    simp only []
    rw [hstep1, hstep2]
  exact ⟨by rw [hbody], by rw [hbody], by rw [hbody], by rw [hbody, hbody]⟩

/-! ### Merge lemmas (for C3) -/

theorem flatMap_singleton {α β} (l : List α) (f : α → List β) (g : α → β)
    (h : ∀ a ∈ l, f a = [g a]) : l.flatMap f = l.map g := by
  induction l with
  | nil => rfl
  | cons a t ih =>
      simp [List.flatMap_cons, h a (by simp), ih (fun x hx => h x (by simp [hx]))]

theorem leftMerge_nrows (m s : DataFrame) :
    (leftMerge m s).nrows = (mergeIdx m s).length := rfl

theorem row_take (m : DataFrame) (i : Nat) (X : List Cell) :
    ((m.row i) ++ X).take m.cols.length = m.row i := by
  have hl : (m.row i).length = m.cols.length := List.length_map _ _
  rw [← hl, List.take_left]

theorem leftMerge_row (m s : DataFrame) (k : Nat) (hk : k < (mergeIdx m s).length) :
    (leftMerge m s).row k =
      m.row ((mergeIdx m s).getD k (0, none)).1 ++
      (rightCols s).map (fun c =>
        match ((mergeIdx m s).getD k (0, none)).2 with
        | some j => c.data.getD j Cell.na
        | none => Cell.na) := by
  unfold leftMerge DataFrame.row
  simp only [List.map_append, List.map_map]
  congr 1
  · show m.cols.map _ = m.cols.map _
    apply List.map_congr_left
    intro c _
    show ((mergeIdx m s).map (fun p => c.data.getD p.1 Cell.na)).getD k Cell.na = _
    exact getD_map' _ _ k (0, none) Cell.na hk
  · show (rightCols s).map _ = (rightCols s).map _
    apply List.map_congr_left
    intro c _
    show ((mergeIdx m s).map (fun p =>
      match p.2 with
      | some j => c.data.getD j Cell.na
      | none => Cell.na)).getD k Cell.na = _
    exact getD_map' _ _ k (0, none) Cell.na hk

theorem cellBeq_iff (x y : Cell) : (x == y) = true ↔ x = y := by
  constructor
  · intro h
    exact of_decide_eq_true h
  · intro h
    subst h
    exact beq_self_eq_true x

theorem stationKeys_getD (s : DataFrame) (j : Nat) (hj : j < s.nrows) :
    (stationKeys s).getD j Cell.na = (s.colData "station_id").getD j Cell.na := by
  unfold stationKeys
  rw [getD_map' _ _ j 0 Cell.na (by simpa using hj)]
  congr 1
  rw [List.getD_eq_getElem _ _ (by simpa using hj)]
  exact List.getElem_range _ _

theorem matchFilter_len_le_one (s : DataFrame) (hnd : (stationKeys s).Nodup)
    (key : Cell) :
    ((List.range s.nrows).filter
      (fun j => (s.colData "station_id").getD j Cell.na == key)).length ≤ 1 := by
  by_contra hge
  have h2 : 2 ≤ ((List.range s.nrows).filter
      (fun j => (s.colData "station_id").getD j Cell.na == key)).length :=
    Nat.succ_le_of_lt (Nat.lt_of_not_le (fun h => hge (Nat.le_of_lt_succ
      (Nat.lt_succ_of_le h))))
  obtain ⟨a, t, hat⟩ : ∃ a t, (List.range s.nrows).filter
      (fun j => (s.colData "station_id").getD j Cell.na == key) = a :: t := by
    cases hc : (List.range s.nrows).filter
        (fun j => (s.colData "station_id").getD j Cell.na == key) with
    | nil => rw [hc] at h2; simp at h2
    | cons a t => exact ⟨a, t, rfl⟩
  obtain ⟨b, t2, hbt⟩ : ∃ b t2, t = b :: t2 := by
    cases hc : t with
    | nil => rw [hc] at hat; rw [hat] at h2; simp at h2
    | cons b t2 => exact ⟨b, t2, rfl⟩
  rw [hbt] at hat
  have hndjs : ((List.range s.nrows).filter
      (fun j => (s.colData "station_id").getD j Cell.na == key)).Nodup :=
    (List.nodup_range s.nrows).filter _
  rw [hat] at hndjs
  have hab : a ≠ b := by
    intro he
    subst he
    exact (List.nodup_cons.mp hndjs).1 (by simp)
  have hamem : a ∈ (List.range s.nrows).filter
      (fun j => (s.colData "station_id").getD j Cell.na == key) := by rw [hat]; simp
  have hbmem : b ∈ (List.range s.nrows).filter
      (fun j => (s.colData "station_id").getD j Cell.na == key) := by rw [hat]; simp
  have ha := List.mem_filter.mp hamem
  have hb := List.mem_filter.mp hbmem
  have halt : a < s.nrows := List.mem_range.mp ha.1
  have hblt : b < s.nrows := List.mem_range.mp hb.1
  have hkeysa : (stationKeys s).getD a Cell.na = key := by
    rw [stationKeys_getD s a halt]
    exact (cellBeq_iff _ _).mp ha.2
  have hkeysb : (stationKeys s).getD b Cell.na = key := by
    rw [stationKeys_getD s b hblt]
    exact (cellBeq_iff _ _).mp hb.2
  have hlen : (stationKeys s).length = s.nrows := by
    unfold stationKeys
    rw [List.length_map, List.length_range]
  have hget : (stationKeys s).get ⟨a, by rw [hlen]; exact halt⟩ =
      (stationKeys s).get ⟨b, by rw [hlen]; exact hblt⟩ := by
    rw [← List.getD_eq_get _ Cell.na, ← List.getD_eq_get _ Cell.na, hkeysa, hkeysb]
  have := List.nodup_iff_injective_get.mp hnd hget
  exact hab (by simpa using congrArg Fin.val this)

theorem mergeIdx_of_nodup (m s : DataFrame) (hnd : (stationKeys s).Nodup) :
    mergeIdx m s = (List.range m.nrows).map (fun i =>
      (i, ((List.range s.nrows).filter
        (fun j => (s.colData "station_id").getD j Cell.na ==
          (m.colData "station_id").getD i Cell.na)).head?)) := by
  unfold mergeIdx
  apply flatMap_singleton
  intro i _
  simp only []
  have hle := matchFilter_len_le_one s hnd ((m.colData "station_id").getD i Cell.na)
  cases hc : (List.range s.nrows).filter
      (fun j => (s.colData "station_id").getD j Cell.na ==
        (m.colData "station_id").getD i Cell.na) with
  | nil => simp
  | cons j t =>
      cases ht : t with
      | nil => simp
      | cons j2 t2 =>
          exfalso
          rw [hc] at hle
          simp at hle
          rw [ht] at hle
          simp at hle

/-- Claim C3: the merger is a left join on station_id.  (a) Every
measurement row appears in the merged result as the left part of some output
row, and a row whose key matches no station keeps missing station metadata.
(b) When the stations table has no duplicate station_id keys, the merge is
one-to-one: the output has exactly one row per measurement row, in order,
whose left part is that measurement row. -/
theorem c3_left_merge (m s : DataFrame) :
    (∀ i, i < m.nrows → ∃ k, k < (leftMerge m s).nrows ∧
      ((leftMerge m s).row k).take m.cols.length = m.row i ∧
      ((stationKeys s).contains ((m.colData "station_id").getD i Cell.na) = false →
        (leftMerge m s).row k = m.row i ++
          List.replicate (rightCols s).length Cell.na)) ∧
    ((stationKeys s).Nodup →
      (leftMerge m s).nrows = m.nrows ∧
      ∀ i, i < m.nrows → ((leftMerge m s).row i).take m.cols.length = m.row i) := by
  constructor
  · intro i hi
    by_cases hempty : ((List.range s.nrows).filter
        (fun j => (s.colData "station_id").getD j Cell.na ==
          (m.colData "station_id").getD i Cell.na)) = []
    · have hmem : ((i, none) : Nat × Option Nat) ∈ mergeIdx m s := by
        unfold mergeIdx
        refine List.mem_flatMap.mpr ⟨i, List.mem_range.mpr hi, ?_⟩
        show ((i, none) : Nat × Option Nat) ∈
          (if ((List.range s.nrows).filter
            (fun j => (s.colData "station_id").getD j Cell.na ==
              (m.colData "station_id").getD i Cell.na)).isEmpty then _ else _)
        rw [if_pos (by rw [hempty]; rfl)]
        simp
      obtain ⟨⟨k, hk⟩, hget⟩ := List.mem_iff_get.mp hmem
      have hgetD : (mergeIdx m s).getD k (0, none) = (i, none) := by
        rw [List.getD_eq_getElem _ _ hk]
        exact hget
      refine ⟨k, hk, ?_, ?_⟩
      · rw [leftMerge_row m s k hk, hgetD]
        exact row_take m i _
      · intro _
        rw [leftMerge_row m s k hk, hgetD]
        simp only []
        congr 1
        exact List.map_const' _ _
    · obtain ⟨j, t, hjt⟩ : ∃ j t, ((List.range s.nrows).filter
          (fun j => (s.colData "station_id").getD j Cell.na ==
            (m.colData "station_id").getD i Cell.na)) = j :: t := by
        cases hc : ((List.range s.nrows).filter
            (fun j => (s.colData "station_id").getD j Cell.na ==
              (m.colData "station_id").getD i Cell.na)) with
        | nil => exact absurd hc hempty
        | cons j t => exact ⟨j, t, rfl⟩
      have hmem : ((i, some j) : Nat × Option Nat) ∈ mergeIdx m s := by
        unfold mergeIdx
        refine List.mem_flatMap.mpr ⟨i, List.mem_range.mpr hi, ?_⟩
        show ((i, some j) : Nat × Option Nat) ∈
          (if ((List.range s.nrows).filter
            (fun j => (s.colData "station_id").getD j Cell.na ==
              (m.colData "station_id").getD i Cell.na)).isEmpty then _ else _)
        rw [if_neg (by rw [hjt]; simp)]
        rw [hjt]
        simp
      obtain ⟨⟨k, hk⟩, hget⟩ := List.mem_iff_get.mp hmem
      have hgetD : (mergeIdx m s).getD k (0, none) = (i, some j) := by
        rw [List.getD_eq_getElem _ _ hk]
        exact hget
      refine ⟨k, hk, ?_, ?_⟩
      · rw [leftMerge_row m s k hk, hgetD]
        exact row_take m i _
      · intro hcontains
        exfalso
        have hjmem : j ∈ ((List.range s.nrows).filter
            (fun j => (s.colData "station_id").getD j Cell.na ==
              (m.colData "station_id").getD i Cell.na)) := by rw [hjt]; simp
        have hj := List.mem_filter.mp hjmem
        have hjlt : j < s.nrows := List.mem_range.mp hj.1
        have hkey : (stationKeys s).getD j Cell.na =
            (m.colData "station_id").getD i Cell.na := by
          rw [stationKeys_getD s j hjlt]
          exact (cellBeq_iff _ _).mp hj.2
        have hmemk : (m.colData "station_id").getD i Cell.na ∈ stationKeys s := by
          rw [← hkey]
          have hjlen : j < (stationKeys s).length := by
            unfold stationKeys
            rw [List.length_map, List.length_range]
            exact hjlt
          rw [List.getD_eq_getElem _ _ hjlen]
          exact List.getElem_mem _
        rw [List.contains_eq_any_beq] at hcontains
        have : (stationKeys s).any (fun x =>
            (m.colData "station_id").getD i Cell.na == x) = true :=
          List.any_eq_true.mpr ⟨_, hmemk, by simp⟩
        rw [this] at hcontains
        cases hcontains
  · intro hnd
    have hidx := mergeIdx_of_nodup m s hnd
    have hlen : (mergeIdx m s).length = m.nrows := by
      rw [hidx, List.length_map, List.length_range]
    constructor
    · rw [leftMerge_nrows, hlen]
    · intro i hi
      have hk : i < (mergeIdx m s).length := by rw [hlen]; exact hi
      have hgetD : ((mergeIdx m s).getD i (0, none)).1 = i := by
        rw [hidx, getD_map' _ _ i 0 (0, none) (by simpa using hi)]
        simp only []
        rw [List.getD_eq_getElem _ _ (by simpa using hi)]
        rw [List.getElem_range _ _]
      rw [leftMerge_row m s i hk, hgetD]
      exact row_take m i _

/-- Claim C3, witness: the merge of two concrete frames with distinct station
keys on the right. -/
theorem c3_witness :
    (∃ k, k < (leftMerge exMergeLeft exMergeRight).nrows ∧
      ((leftMerge exMergeLeft exMergeRight).row k).take exMergeLeft.cols.length =
        exMergeLeft.row 0 ∧
      ((stationKeys exMergeRight).contains
          ((exMergeLeft.colData "station_id").getD 0 Cell.na) = false →
        (leftMerge exMergeLeft exMergeRight).row k = exMergeLeft.row 0 ++
          List.replicate (rightCols exMergeRight).length Cell.na)) ∧
    ((leftMerge exMergeLeft exMergeRight).nrows = exMergeLeft.nrows ∧
      ∀ i, i < exMergeLeft.nrows →
        ((leftMerge exMergeLeft exMergeRight).row i).take exMergeLeft.cols.length =
          exMergeLeft.row i) :=
  ⟨(c3_left_merge exMergeLeft exMergeRight).1 0 (by decide),
   (c3_left_merge exMergeLeft exMergeRight).2 (by decide)⟩

/-! ### Column-presence lemmas for the dashboard pipeline (for C5) -/

theorem appNormalizeStations_colNames (df0 : DataFrame) :
    (appNormalizeStations df0).colNames =
      ["station_id", "station_name", "lat", "lon", "station_type"] := by
  unfold appNormalizeStations
  simp only []
  apply select_colNames
  intro n hn
  exact ensureCols_hasCol_of_mem _ _ _ hn

theorem concat_hasCol (a b : DataFrame) (n : String) :
    (concatDF a b).hasCol n = (a.hasCol n || b.hasCol n) := by
  have hmem : n ∈ (concatDF a b).colNames ↔ (n ∈ a.colNames ∨ n ∈ b.colNames) := by
    rw [concat_colNames, List.mem_append]
    constructor
    · rintro (h | h)
      · exact Or.inl h
      · exact Or.inr (List.mem_filter.mp h).1
    · rintro (h | h)
      · exact Or.inl h
      · by_cases ha : n ∈ a.colNames
        · exact Or.inl ha
        · refine Or.inr (List.mem_filter.mpr ⟨h, ?_⟩)
          simp only [Bool.not_eq_true']
          rw [List.contains_eq_any_beq]
          rw [List.any_eq_false]
          intro x hx
          intro hbeq
          exact ha (by rw [show n = x from by simpa using hbeq]; exact hx)
  rw [Bool.eq_iff_iff, Bool.or_eq_true, hasCol_iff_mem, hasCol_iff_mem, hasCol_iff_mem]
  exact hmem

theorem map_name_filter (cols : List Column) (p : String → Bool) :
    (cols.filter (fun c => p c.name)).map (fun c => c.name) =
      (cols.map (fun c => c.name)).filter p := by
  induction cols with
  | nil => rfl
  | cons c t ih =>
      by_cases hp : p c.name <;> simp [List.filter_cons, hp, ih]

theorem rightCols_names_appStations (sraw : DataFrame) :
    ((rightCols (appNormalizeStations sraw)).map (fun c => c.name)) =
      ["station_name", "lat", "lon", "station_type"] := by
  unfold rightCols
  rw [map_name_filter (appNormalizeStations sraw).cols (fun n => !(n == "station_id"))]
  rw [show (appNormalizeStations sraw).cols.map (fun c => c.name) =
    (appNormalizeStations sraw).colNames from rfl]
  rw [appNormalizeStations_colNames]
  decide

theorem leftMerge_colNames (m s : DataFrame) :
    (leftMerge m s).colNames =
      m.cols.map (fun c => if ((rightCols s).map (fun c => c.name)).contains c.name
        then c.name ++ "_x" else c.name) ++
      (rightCols s).map (fun c => if m.colNames.contains c.name
        then c.name ++ "_y" else c.name) := by
  unfold leftMerge DataFrame.colNames
  simp only [List.map_append, List.map_map]
  rfl

theorem leftMerge_hasCol_left (m s : DataFrame) (n : String)
    (hm : m.hasCol n = true)
    (hr : ((rightCols s).map (fun c => c.name)).contains n = false) :
    (leftMerge m s).hasCol n = true := by
  rw [hasCol_iff_mem] at hm ⊢
  rw [leftMerge_colNames, List.mem_append]
  left
  obtain ⟨c, hcmem, hcn⟩ := List.mem_map.mp hm
  refine List.mem_map.mpr ⟨c, hcmem, ?_⟩
  rw [hcn, hr]
  simp

theorem loadCore_isSome (meas2 meas1 sraw : DataFrame) :
    (loadCore meas2 meas1 (some sraw)).isSome =
      ((if ((if meas2.isEmpty = true then meas1 else concatDF meas2 meas1).hasCol
            "station_id" && !(appNormalizeStations sraw).isEmpty) = true then
          leftMerge (if meas2.isEmpty = true then meas1 else concatDF meas2 meas1)
            (appNormalizeStations sraw)
        else (if meas2.isEmpty = true then meas1 else concatDF meas2 meas1)).hasCol
          "year" &&
       (if ((if meas2.isEmpty = true then meas1 else concatDF meas2 meas1).hasCol
            "station_id" && !(appNormalizeStations sraw).isEmpty) = true then
          leftMerge (if meas2.isEmpty = true then meas1 else concatDF meas2 meas1)
            (appNormalizeStations sraw)
        else (if meas2.isEmpty = true then meas1 else concatDF meas2 meas1)).hasCol
          "value" &&
       (if ((if meas2.isEmpty = true then meas1 else concatDF meas2 meas1).hasCol
            "station_id" && !(appNormalizeStations sraw).isEmpty) = true then
          leftMerge (if meas2.isEmpty = true then meas1 else concatDF meas2 meas1)
            (appNormalizeStations sraw)
        else (if meas2.isEmpty = true then meas1 else concatDF meas2 meas1)).hasCol
          "pollutant") := by
  unfold loadCore
  simp only []
  split <;> split <;> split <;>
    first
      | (rename_i h; rw [h]; rfl)
      | (rename_i h; rw [Bool.not_eq_true] at h; rw [h]; rfl)

/-- Claim C5, counterexample: when both measurement reads fail but the
stations CSV read succeeds, `load_and_prepare` still raises (the final
cleanup hits a missing `year` column on the empty fallback frame), so "does
not propagate the exception unless reading the stations CSV itself fails"
is false as stated.  By contrast, one failing dataset alone is survived. -/
theorem c5_counterexample :
    loadAndPrepare none none (some exStationsRaw) = none ∧
    (loadAndPrepare none (some exMeas) (some exStationsRaw)).isSome = true := by
  decide

/-- Claim C5, amended: a failed read or normalize of either measurement
dataset is caught and replaced by an empty frame, and the pipeline continues
with the other dataset; `load_and_prepare` succeeds exactly when the
stations read succeeds *and* at least one measurement dataset survives
non-degenerate (dataset 2 normalized to a nonempty frame, or dataset 1
normalized at all) — when both degenerate, the final cleanup raises on the
column-less fallback frame even though the stations read succeeded. -/
theorem c5_load_fallback (m2r m1r strr : Option DataFrame) :
    (loadAndPrepare m2r m1r strr).isSome =
      (strr.isSome && (!((m2r.bind appNormalize).getD emptyDF).isEmpty ||
        (m1r.bind appNormalize).isSome)) ∧
    loadAndPrepare none m1r strr =
      loadCore emptyDF ((m1r.bind appNormalize).getD emptyDF) strr ∧
    loadAndPrepare m2r none strr =
      loadCore ((m2r.bind appNormalize).getD emptyDF) emptyDF strr ∧
    loadAndPrepare m2r m1r none = none := by
  refine ⟨?_, rfl, rfl, rfl⟩
  cases strr with
  | none => rfl
  | some sraw =>
      simp only [Option.isSome_some, Bool.true_and]
      have hwanted : ∀ out : DataFrame, out.colNames = appWanted →
          out.hasCol "year" = true ∧ out.hasCol "value" = true ∧
            out.hasCol "pollutant" = true := by
        intro out hc
        refine ⟨?_, ?_, ?_⟩ <;> (rw [hasCol_iff_mem, hc]; decide)
      have hmerged : ∀ meas : DataFrame, meas.hasCol "year" = true →
          meas.hasCol "value" = true → meas.hasCol "pollutant" = true →
          ((if (meas.hasCol "station_id" && !(appNormalizeStations sraw).isEmpty) = true
            then leftMerge meas (appNormalizeStations sraw) else meas).hasCol "year" &&
           (if (meas.hasCol "station_id" && !(appNormalizeStations sraw).isEmpty) = true
            then leftMerge meas (appNormalizeStations sraw) else meas).hasCol "value" &&
           (if (meas.hasCol "station_id" && !(appNormalizeStations sraw).isEmpty) = true
            then leftMerge meas (appNormalizeStations sraw) else meas).hasCol
             "pollutant") = true := by
        intro meas hy hv hp
        by_cases hmc : (meas.hasCol "station_id" &&
            !(appNormalizeStations sraw).isEmpty) = true
        · rw [if_pos hmc]
          rw [leftMerge_hasCol_left _ _ _ hy
              (by rw [rightCols_names_appStations]; decide),
            leftMerge_hasCol_left _ _ _ hv
              (by rw [rightCols_names_appStations]; decide),
            leftMerge_hasCol_left _ _ _ hp
              (by rw [rightCols_names_appStations]; decide)]
          rfl
        · rw [if_neg hmc, hy, hv, hp]
          rfl
      show (loadCore ((m2r.bind appNormalize).getD emptyDF)
        ((m1r.bind appNormalize).getD emptyDF) (some sraw)).isSome = _
      rw [loadCore_isSome]
      by_cases h2 : ((m2r.bind appNormalize).getD emptyDF).isEmpty = true
      · rw [h2]
        simp only [if_true, Bool.not_true, Bool.false_or]
        cases hm1 : m1r.bind appNormalize with
        | none =>
            simp only [Option.getD_none, Option.isSome_none]
            have hsid : emptyDF.hasCol "station_id" = false := rfl
            rw [hsid]
            simp only [Bool.false_and, if_false]
            rfl
        | some out =>
            simp only [Option.getD_some, Option.isSome_some]
            obtain ⟨df, _, hnorm⟩ := Option.bind_eq_some.mp hm1
            obtain ⟨hy, hv, hp⟩ := hwanted out (appNormalize_colNames df out hnorm)
            exact hmerged out hy hv hp
      · rw [Bool.not_eq_true] at h2
        rw [h2]
        simp only [Bool.false_eq_true, if_false, Bool.not_false, Bool.true_or]
        have hm2 : ∃ out2, m2r.bind appNormalize = some out2 := by
          cases hc : m2r.bind appNormalize with
          | none =>
              exfalso
              rw [hc] at h2
              simp only [Option.getD_none] at h2
              exact absurd h2 (by decide)
          | some out2 => exact ⟨out2, rfl⟩
        obtain ⟨out2, hout2⟩ := hm2
        rw [hout2]
        simp only [Option.getD_some]
        obtain ⟨df2, _, hnorm2⟩ := Option.bind_eq_some.mp hout2
        obtain ⟨hy2, hv2, hp2⟩ := hwanted out2 (appNormalize_colNames df2 out2 hnorm2)
        have hy : (concatDF out2 ((m1r.bind appNormalize).getD emptyDF)).hasCol "year"
            = true := by rw [concat_hasCol, hy2]; rfl
        have hv : (concatDF out2 ((m1r.bind appNormalize).getD emptyDF)).hasCol "value"
            = true := by rw [concat_hasCol, hv2]; rfl
        have hp : (concatDF out2 ((m1r.bind appNormalize).getD emptyDF)).hasCol
            "pollutant" = true := by rw [concat_hasCol, hp2]; rfl
        exact hmerged _ hy hv hp

/-! ### Row-count preservation and the all-missing dropna (for C10) -/

theorem fetchStage1_nrows (df : DataFrame) : (fetchStage1 df).nrows = df.nrows := by
  unfold fetchStage1
  cases hd : (df.colNames.filter fetchDateMatch).head? with
  | some dcol => simp only []; rw [setCol_nrows, setCol_nrows]
  | none =>
      by_cases hy : (df.hasCol "year" && df.hasCol "month" && df.hasCol "day") = true
      · simp only [hy, if_true]; rw [setCol_nrows, setCol_nrows]
      · simp only [hy]
        rw [if_neg (by simp [hy])]
        rw [setScalar_nrows, setScalar_nrows]

theorem fetchStage2_nrows (df : DataFrame) : (fetchStage2 df).nrows = df.nrows := by
  unfold fetchStage2
  cases hv : (df.colNames.filter fetchValueMatch).head? with
  | some v => simp only []; rw [setCol_nrows]
  | none =>
      cases hn : (df.cols.filter (fun c => c.dtype == Dtype.number)).head? with
      | some c => simp only []; rw [setCol_nrows]
      | none => simp only []; rw [setScalar_nrows]

theorem fetchStage3_nrows (df : DataFrame) : (fetchStage3 df).nrows = df.nrows := by
  unfold fetchStage3
  cases hp : (df.colNames.filter fetchPolMatch).head? with
  | some v => simp only []; rw [setCol_nrows]
  | none => simp only []; rw [setScalar_nrows]

theorem fetchStage4_nrows (df : DataFrame) : (fetchStage4 df).nrows = df.nrows := by
  unfold fetchStage4
  cases hs : (df.colNames.filter fetchStMatch).head? with
  | some v => simp only []; rw [setCol_nrows]
  | none => simp only []; rw [setScalar_nrows]

theorem fetchStage5_nrows (df : DataFrame) : (fetchStage5 df).nrows = df.nrows := by
  unfold fetchStage5
  cases hs : (df.colNames.filter fetchNameMatch).head? with
  | some v => simp only []; rw [setCol_nrows]
  | none =>
      cases hg : df.getCol "station_id" with
      | some c => simp only []; rw [setCol_nrows]
      | none => simp only []; rw [setScalar_nrows]

theorem fetchStage6_nrows (df : DataFrame) : (fetchStage6 df).nrows = df.nrows := by
  unfold fetchStage6
  simp only [DataFrame.setScalar]
  cases hlat : df.colNames.find?
      (fun c => c == "lat" || c == "lat_y_4326" || c == "latitude") with
  | some lc =>
      simp only []
      cases hlon : ((df.setCol "lat" Dtype.number
          ((df.colData lc).map toNumericCell)).colNames).find?
          (fun c => c == "lon" || c == "long_x_4326" || c == "longitude" || c == "long") with
      | some lc2 => simp only []; rw [setCol_nrows, setCol_nrows]
      | none => simp only []; rw [setCol_nrows, setCol_nrows]
  | none =>
      simp only []
      cases hlon : ((df.setCol "lat" Dtype.obj
          (List.replicate df.nrows Cell.na)).colNames).find?
          (fun c => c == "lon" || c == "long_x_4326" || c == "longitude" || c == "long") with
      | some lc2 => simp only []; rw [setCol_nrows, setCol_nrows]
      | none => simp only []; rw [setCol_nrows, setCol_nrows]

theorem fetchStage7_nrows (df : DataFrame) : (fetchStage7 df).nrows = df.nrows := by
  unfold fetchStage7
  simp only [DataFrame.setScalar]
  have step1 : ∀ d1 : DataFrame, d1.nrows = df.nrows →
      (match d1.getCol "qc_flag" with
        | some c => d1.setCol "qc_flag" c.dtype c.data
        | none => d1.setCol "qc_flag" Dtype.number
            (List.replicate d1.nrows (Cell.num 0))).nrows = df.nrows := by
    intro d1 hd1
    cases hq : d1.getCol "qc_flag" with
    | some c => simp only []; rw [setCol_nrows]; exact hd1
    | none => simp only []; rw [setCol_nrows]; exact hd1
  have step2 : ∀ d2 : DataFrame, d2.nrows = df.nrows →
      (match (d2.colNames.filter fetchTypeMatch).head? with
        | some t =>
            match d2.getCol t with
            | some c => d2.setCol "station_type" c.dtype c.data
            | none => d2.setCol "station_type" Dtype.obj
                (List.replicate d2.nrows Cell.na)
        | none => d2.setCol "station_type" Dtype.obj
            (List.replicate d2.nrows Cell.na)).nrows = df.nrows := by
    intro d2 hd2
    cases ht : (d2.colNames.filter fetchTypeMatch).head? with
    | some t =>
        simp only []
        cases hg : d2.getCol t with
        | some c =>
            simp only []
            rw [setCol_nrows]
            exact hd2
        | none =>
            simp only []
            rw [setCol_nrows]
            exact hd2
    | none => simp only []; rw [setCol_nrows]; exact hd2
  cases hu : (df.colNames.filter fetchUnitMatch).head? with
  | some u =>
      simp only []
      exact step2 _ (step1 _ (by rw [setCol_nrows]))
  | none =>
      simp only []
      exact step2 _ (step1 _ (by rw [setCol_nrows]))

theorem fetchPreDrop_nrows (df0 : DataFrame) :
    (fetchPreDrop df0).nrows = df0.nrows := by
  unfold fetchPreDrop
  rw [fetchStage7_nrows, fetchStage6_nrows, fetchStage5_nrows, fetchStage4_nrows,
    fetchStage3_nrows, fetchStage2_nrows, fetchStage1_nrows, lowerCols_nrows]

theorem appDatetimeStep_nrows (df : DataFrame) (dc : List String) :
    (appDatetimeStep df dc).nrows = df.nrows := by
  unfold appDatetimeStep
  cases hd : dc.head? with
  | some v => simp only []; rw [setCol_nrows]
  | none => simp only []; rw [setScalar_nrows]

theorem appValueStep_nrows (df : DataFrame) (vc : List String) :
    (appValueStep df vc).nrows = df.nrows := by
  unfold appValueStep
  cases hv : vc.head? with
  | some v => simp only []; rw [setCol_nrows]
  | none =>
      cases hn : (df.cols.filter (fun c => c.dtype == Dtype.number)).head? with
      | some c => simp only []; rw [setCol_nrows]
      | none => simp only []; rw [setScalar_nrows]

theorem appPollStep_nrows (df : DataFrame) (pc : List String) (d : DataFrame)
    (hd : appPollStep df pc = some d) : d.nrows = df.nrows := by
  unfold appPollStep at hd
  cases hp : pc.head? with
  | some p =>
      rw [hp] at hd
      simp only [Option.some.injEq] at hd
      rw [← hd, setCol_nrows]
  | none =>
      rw [hp] at hd
      simp only [] at hd
      cases hg : df.getCol "inquinanti_aria_tipologia" with
      | some c =>
          rw [hg] at hd
          simp only [Option.some.injEq] at hd
          rw [← hd, setCol_nrows]
      | none =>
          rw [hg] at hd
          simp only [] at hd
          cases hg2 : df.getCol "nome" with
          | some c =>
              rw [hg2] at hd
              simp only [Option.some.injEq] at hd
              rw [← hd, setCol_nrows]
          | none => rw [hg2] at hd; cases hd

theorem appStationStep_nrows (df : DataFrame) (sc : List String) :
    (appStationStep df sc).nrows = df.nrows := by
  unfold appStationStep
  cases hs : sc.head? with
  | some s0 => simp only []; rw [setCol_nrows]
  | none =>
      by_cases hcn : df.hasCol "nomecentralina" = true
      · rw [if_pos hcn, setCol_nrows, setCol_nrows]
      · rw [if_neg hcn]
        cases hg : df.getCol "id" with
        | some c => simp only []; rw [setCol_nrows]
        | none => simp only []; rw [setScalar_nrows]

theorem appYearStep_nrows (df : DataFrame) : (appYearStep df).nrows = df.nrows := by
  unfold appYearStep
  rw [setCol_nrows, setCol_nrows]

theorem dropna_allNA (df : DataFrame) (ss : List String) (n : String) (hn : n ∈ ss)
    (h : df.colData n = List.replicate df.nrows Cell.na) :
    (df.dropnaAny ss).nrows = 0 := by
  rw [dropna_nrows]
  rw [show ((List.range df.nrows).filter (df.keepRow ss)) = [] from ?_]
  · rfl
  · rw [List.filter_eq_nil_iff]
    intro i hi
    intro hkeep
    have := List.all_eq_true.mp hkeep n hn
    rw [h, replicate_na_getD] at this
    simp at this

/-- Claim C10: when no (lowercased) column name matches the value keywords,
both normalizers fall back to the first numeric-dtype column of the frame
being scanned, copying its data into `value`; when no numeric column exists
either, `value` is set to missing for every row — and since both `dropna`
subsets include `value`, the normalized output is then empty. -/
theorem c10_numeric_fallback (df : DataFrame) :
    (((lowerCols df).colNames.filter fetchValueMatch = []) →
      (∀ c : Column, ((fetchStage1 (lowerCols df)).cols.filter
          (fun c => c.dtype == Dtype.number)).head? = some c →
        (fetchPreDrop df).getCol "value" = some ⟨"value", Dtype.number, c.data⟩) ∧
      (((fetchStage1 (lowerCols df)).cols.filter
          (fun c => c.dtype == Dtype.number)) = [] →
        (fetchPreDrop df).colData "value" =
          List.replicate (fetchPreDrop df).nrows Cell.na ∧
        (fetchNormalize df).nrows = 0)) ∧
    (((lowerCols df).colNames.filter appValueMatch = []) →
      ∀ d : DataFrame, appPreDrop df = some d →
      (∀ c : Column, ((appDatetimeStep (lowerCols df)
            ((lowerCols df).colNames.filter appDateMatch)).cols.filter
          (fun c => c.dtype == Dtype.number)).head? = some c →
        d.getCol "value" = some ⟨"value", Dtype.number, c.data⟩) ∧
      (((appDatetimeStep (lowerCols df)
            ((lowerCols df).colNames.filter appDateMatch)).cols.filter
          (fun c => c.dtype == Dtype.number)) = [] →
        d.colData "value" = List.replicate d.nrows Cell.na ∧
        ∀ out : DataFrame, appNormalize df = some out → out.nrows = 0)) := by
  constructor
  · intro hL
    have hfil : (fetchStage1 (lowerCols df)).colNames.filter fetchValueMatch = [] := by
      rw [fetchStage1_filter _ _ (by decide) (by decide)]
      exact hL
    constructor
    · intro c hc
      rw [fetchPreDrop_getCol_value]
      unfold fetchStage2
      rw [hfil]
      try simp only []
      rw [hc]
      try simp only []
      exact getCol_setCol_self _ _ _ _
    · intro hnum
      have hv2 : (fetchStage2 (fetchStage1 (lowerCols df))).getCol "value" =
          some ⟨"value", Dtype.obj,
            List.replicate (fetchStage1 (lowerCols df)).nrows Cell.na⟩ := by
        unfold fetchStage2
        rw [hfil]
        try simp only []
        rw [hnum]
        try simp only [DataFrame.setScalar]
        exact getCol_setCol_self _ _ _ _
      have hpd : (fetchPreDrop df).getCol "value" =
          some ⟨"value", Dtype.obj,
            List.replicate (fetchStage1 (lowerCols df)).nrows Cell.na⟩ := by
        rw [fetchPreDrop_getCol_value]
        exact hv2
      have hlen : (fetchStage1 (lowerCols df)).nrows = (fetchPreDrop df).nrows := by
        rw [fetchPreDrop_nrows, fetchStage1_nrows, lowerCols_nrows]
      constructor
      · rw [colData_of_getCol hpd]
        simp only []
        rw [hlen]
      · rw [fetchNormalize_nrows]
        apply dropna_allNA _ _ "value" (by decide)
        rw [colData_of_getCol hpd]
        simp only []
        rw [hlen]
  · intro hL d hd
    obtain ⟨d', hpoll, hde⟩ := appPreDrop_parts df d hd
    constructor
    · intro c hc
      have hX : (appValueStep (appDatetimeStep (lowerCols df)
          ((lowerCols df).colNames.filter appDateMatch))
          ((lowerCols df).colNames.filter appValueMatch)).getCol "value" =
          some ⟨"value", Dtype.number, c.data⟩ := by
        unfold appValueStep
        rw [hL]
        try simp only []
        rw [hc]
        try simp only []
        exact getCol_setCol_self _ _ _ _
      rw [hde, appYearStep_getCol_ne _ _ (by decide) (by decide),
        appStationStep_getCol_ne _ _ _ (by decide) (by decide),
        appPollStep_getCol_ne _ _ _ hpoll _ (by decide)]
      exact hX
    · intro hnum
      have hX : (appValueStep (appDatetimeStep (lowerCols df)
          ((lowerCols df).colNames.filter appDateMatch))
          ((lowerCols df).colNames.filter appValueMatch)).getCol "value" =
          some ⟨"value", Dtype.obj,
            List.replicate (appDatetimeStep (lowerCols df)
              ((lowerCols df).colNames.filter appDateMatch)).nrows Cell.na⟩ := by
        unfold appValueStep
        rw [hL]
        try simp only []
        rw [hnum]
        try simp only [DataFrame.setScalar]
        exact getCol_setCol_self _ _ _ _
      have hdcol : d.getCol "value" = some ⟨"value", Dtype.obj,
          List.replicate (appDatetimeStep (lowerCols df)
            ((lowerCols df).colNames.filter appDateMatch)).nrows Cell.na⟩ := by
        rw [hde, appYearStep_getCol_ne _ _ (by decide) (by decide),
          appStationStep_getCol_ne _ _ _ (by decide) (by decide),
          appPollStep_getCol_ne _ _ _ hpoll _ (by decide)]
        exact hX
      have hlen : (appDatetimeStep (lowerCols df)
          ((lowerCols df).colNames.filter appDateMatch)).nrows = d.nrows := by
        rw [hde, appYearStep_nrows, appStationStep_nrows,
          appPollStep_nrows _ _ _ hpoll, appValueStep_nrows]
      constructor
      · rw [colData_of_getCol hdcol]
        simp only []
        rw [hlen]
      · intro out hout
        obtain ⟨out', hout', hnr⟩ := appNormalize_nrows df d hd
        have : out' = out := Option.some.inj (hout'.symm.trans hout)
        rw [← this, hnr]
        apply dropna_allNA _ _ "value" (by decide)
        rw [colData_of_getCol hdcol]
        simp only []
        rw [hlen]

/-- Claim C10, witness: the fallbacks evaluated on `exNumOnly` (one numeric
column, taken as value) and `exNoNum` (no numeric column, empty output). -/
theorem c10_witness :
    (fetchPreDrop exNumOnly).getCol "value" =
      some ⟨"value", Dtype.number, [Cell.num 42]⟩ ∧
    (fetchNormalize exNoNum).nrows = 0 ∧
    ((appPreDrop exNumOnly).getD emptyDF).getCol "value" =
      some ⟨"value", Dtype.number, [Cell.num 42]⟩ ∧
    ((appNormalize exNoNum).getD emptyDF).nrows = 0 := by
  refine ⟨?_, ?_, ?_, ?_⟩
  · exact ((c10_numeric_fallback exNumOnly).1 (by decide)).1
      ⟨"pressione", Dtype.number, [Cell.num 42]⟩ (by decide)
  · exact (((c10_numeric_fallback exNoNum).1 (by decide)).2 (by decide)).2
  · exact (((c10_numeric_fallback exNumOnly).2 (by decide))
      ((appPreDrop exNumOnly).getD emptyDF) (by decide)).1
      ⟨"pressione", Dtype.number, [Cell.num 42]⟩ (by decide)
  · exact ((((c10_numeric_fallback exNoNum).2 (by decide))
      ((appPreDrop exNoNum).getD emptyDF) (by decide)).2
      (by decide)).2 ((appNormalize exNoNum).getD emptyDF) (by decide)

/-! ### Least-squares and anomaly lemmas (for C8) -/

theorem lossQ_expand (a b : ℚ) : ∀ pts : List (ℚ × ℚ),
    lossQ pts a b = a ^ 2 * sumXX pts + 2 * a * b * sumX pts + ptsLen pts * b ^ 2
      - 2 * a * sumXY pts - 2 * b * sumY pts + sumYY pts := by
  intro pts
  induction pts with
  | nil => simp [lossQ, sumXX, sumX, ptsLen, sumXY, sumY, sumYY]
  | cons p l ih =>
      simp only [lossQ, List.map_cons, List.sum_cons] at ih ⊢
      rw [ih]
      simp only [sumXX, sumX, ptsLen, sumXY, sumY, sumYY, List.map_cons,
        List.sum_cons, List.length_cons]
      push_cast
      ring

theorem lossQ_min_identity (pts : List (ℚ × ℚ)) (hD : lsqDenom pts ≠ 0)
    (hn : ptsLen pts ≠ 0) (a b : ℚ) :
    lossQ pts a b = lossQ pts (lsqSlope pts) (lsqIntercept pts)
      + (ptsLen pts)⁻¹ * (ptsLen pts * b + a * sumX pts - sumY pts) ^ 2
      + (lsqDenom pts / ptsLen pts) * (a - lsqSlope pts) ^ 2 := by
  have hd' : ptsLen pts * sumXX pts - sumX pts * sumX pts ≠ 0 := hD
  rw [lossQ_expand, lossQ_expand]
  unfold lsqIntercept lsqSlope lsqDenom
  field_simp
  ring

theorem ptsLen_pos_of_lsqDenom_pos (pts : List (ℚ × ℚ)) (h : 0 < lsqDenom pts) :
    0 < ptsLen pts := by
  cases pts with
  | nil =>
      exfalso
      simp [lsqDenom, ptsLen, sumXX, sumX] at h
  | cons p l =>
      unfold ptsLen
      exact_mod_cast Nat.succ_pos l.length

theorem seriesVar_nonneg (ys : List ℚ) (h2 : 2 ≤ ys.length) : 0 ≤ seriesVar ys := by
  unfold seriesVar
  apply div_nonneg
  · apply List.sum_nonneg
    intro x hx
    obtain ⟨z, _, hxz⟩ := List.mem_map.mp hx
    rw [← hxz]
    exact sq_nonneg _
  · have hc : (2 : ℚ) ≤ (ys.length : ℚ) := by exact_mod_cast h2
    linarith

/-- Claim C8: the dashboard's trend is the slope of the degree-1
least-squares fit of annual mean against year — the embedded closed-form
slope minimizes the squared-error loss whenever the fit is nondegenerate —
classified as decreasing below −0.01, increasing above 0.01 and stable in
between; and an annual mean is flagged anomalous exactly when it exceeds
the series mean plus two (sample) standard deviations. -/
theorem c8_trend_anomaly (pts : List (ℚ × ℚ)) (ys : List ℚ) (y : ℚ) :
    (0 < lsqDenom pts → ∀ a b : ℚ,
      lossQ pts (lsqSlope pts) (lsqIntercept pts) ≤ lossQ pts a b) ∧
    (trendLabel pts = TrendLabel.decreasing ↔ lsqSlope pts < -(1 / 100)) ∧
    (trendLabel pts = TrendLabel.increasing ↔ (1 / 100 : ℚ) < lsqSlope pts) ∧
    (trendLabel pts = TrendLabel.stable ↔
      (-(1 / 100) ≤ lsqSlope pts ∧ lsqSlope pts ≤ (1 / 100 : ℚ))) ∧
    (2 ≤ ys.length → (isAnomalous ys y = true ↔
      (seriesMean ys : ℝ) + 2 * Real.sqrt ((seriesVar ys : ℝ)) < (y : ℝ))) := by
  refine ⟨?_, ?_, ?_⟩
  · intro h a b
    have hn := ptsLen_pos_of_lsqDenom_pos pts h
    rw [lossQ_min_identity pts (ne_of_gt h) (ne_of_gt hn) a b]
    have h1 : 0 ≤ (ptsLen pts)⁻¹ * (ptsLen pts * b + a * sumX pts - sumY pts) ^ 2 :=
      mul_nonneg (inv_nonneg.mpr (le_of_lt hn)) (sq_nonneg _)
    have h2 : 0 ≤ (lsqDenom pts / ptsLen pts) * (a - lsqSlope pts) ^ 2 :=
      mul_nonneg (div_nonneg (le_of_lt h) (le_of_lt hn)) (sq_nonneg _)
    linarith
  · by_cases h1 : lsqSlope pts < -(1 / 100)
    · have hlab : trendLabel pts = TrendLabel.decreasing := by
        unfold trendLabel
        rw [if_pos h1]
      rw [hlab]
      exact iff_of_true rfl h1
    · by_cases h2 : (1 / 100 : ℚ) < lsqSlope pts
      · have hlab : trendLabel pts = TrendLabel.increasing := by
          unfold trendLabel
          rw [if_neg h1, if_pos h2]
        rw [hlab]
        exact iff_of_false (by decide) h1
      · have hlab : trendLabel pts = TrendLabel.stable := by
          unfold trendLabel
          rw [if_neg h1, if_neg h2]
        rw [hlab]
        exact iff_of_false (by decide) h1
  refine ⟨?_, ?_, ?_⟩
  · by_cases h1 : lsqSlope pts < -(1 / 100)
    · have hlab : trendLabel pts = TrendLabel.decreasing := by
        unfold trendLabel
        rw [if_pos h1]
      rw [hlab]
      exact iff_of_false (by decide) (by intro hc; linarith)
    · by_cases h2 : (1 / 100 : ℚ) < lsqSlope pts
      · have hlab : trendLabel pts = TrendLabel.increasing := by
          unfold trendLabel
          rw [if_neg h1, if_pos h2]
        rw [hlab]
        exact iff_of_true rfl h2
      · have hlab : trendLabel pts = TrendLabel.stable := by
          unfold trendLabel
          rw [if_neg h1, if_neg h2]
        rw [hlab]
        exact iff_of_false (by decide) h2
  · by_cases h1 : lsqSlope pts < -(1 / 100)
    · have hlab : trendLabel pts = TrendLabel.decreasing := by
        unfold trendLabel
        rw [if_pos h1]
      rw [hlab]
      exact iff_of_false (by decide) (by intro hp; linarith [hp.1])
    · by_cases h2 : (1 / 100 : ℚ) < lsqSlope pts
      · have hlab : trendLabel pts = TrendLabel.increasing := by
          unfold trendLabel
          rw [if_neg h1, if_pos h2]
        rw [hlab]
        exact iff_of_false (by decide) (by intro hp; linarith [hp.2])
      · have hlab : trendLabel pts = TrendLabel.stable := by
          unfold trendLabel
          rw [if_neg h1, if_neg h2]
        rw [hlab]
        exact iff_of_true rfl ⟨le_of_not_lt h1, le_of_not_lt h2⟩
  · intro h2
    have hv := seriesVar_nonneg ys h2
    have hvR : (0 : ℝ) ≤ (seriesVar ys : ℝ) := by exact_mod_cast hv
    have h4 : Real.sqrt (4 * (seriesVar ys : ℝ)) = 2 * Real.sqrt (seriesVar ys) := by
      rw [show (4 : ℝ) * (seriesVar ys : ℝ) = (2 : ℝ) ^ 2 * (seriesVar ys : ℝ) by
          norm_num,
        Real.sqrt_mul (by positivity), Real.sqrt_sq (by norm_num)]
    unfold isAnomalous
    rw [Bool.and_eq_true, decide_eq_true_eq, decide_eq_true_eq]
    constructor
    · rintro ⟨hpos, hsq⟩
      have hposR : (0 : ℝ) < (y : ℝ) - (seriesMean ys : ℝ) := by
        have := hpos
        push_cast at this ⊢
        exact_mod_cast this
      have hsqR : 4 * (seriesVar ys : ℝ) < ((y : ℝ) - (seriesMean ys : ℝ)) ^ 2 := by
        exact_mod_cast hsq
      have hsqrt : Real.sqrt (4 * (seriesVar ys : ℝ)) < (y : ℝ) - seriesMean ys := by
        rw [show ((y : ℝ) - (seriesMean ys : ℝ)) =
            Real.sqrt (((y : ℝ) - (seriesMean ys : ℝ)) ^ 2) from
          (Real.sqrt_sq (le_of_lt hposR)).symm]
        exact Real.sqrt_lt_sqrt (by positivity) hsqR
      rw [h4] at hsqrt
      linarith
    · intro hlt
      have h2v : (0 : ℝ) ≤ 2 * Real.sqrt (seriesVar ys) := by positivity
      have hposR : (0 : ℝ) < (y : ℝ) - (seriesMean ys : ℝ) := by linarith
      have hlt2 : 2 * Real.sqrt (seriesVar ys) < (y : ℝ) - seriesMean ys := by
        linarith
      have hsq : (2 * Real.sqrt (seriesVar ys)) ^ 2 <
          ((y : ℝ) - (seriesMean ys : ℝ)) ^ 2 :=
        pow_lt_pow_left hlt2 h2v (by norm_num)
      rw [mul_pow, Real.sq_sqrt hvR] at hsq
      constructor
      · exact_mod_cast hposR
      · have : (4 : ℝ) * (seriesVar ys : ℝ) < ((y : ℝ) - (seriesMean ys : ℝ)) ^ 2 := by
          norm_num at hsq
          linarith
        exact_mod_cast this

/-- Claim C8, witness: the minimizing property at a nondegenerate concrete
series, and the anomaly flag at a concrete annual series and value. -/
theorem c8_witness :
    (∀ a b : ℚ, lossQ [((0 : ℚ), (0 : ℚ)), (1, 1), (2, 4)]
        (lsqSlope [((0 : ℚ), (0 : ℚ)), (1, 1), (2, 4)])
        (lsqIntercept [((0 : ℚ), (0 : ℚ)), (1, 1), (2, 4)]) ≤
      lossQ [((0 : ℚ), (0 : ℚ)), (1, 1), (2, 4)] a b) ∧
    (isAnomalous [(1 : ℚ), 1, 1, 10] 10 = true ↔
      (seriesMean [(1 : ℚ), 1, 1, 10] : ℝ) +
        2 * Real.sqrt ((seriesVar [(1 : ℚ), 1, 1, 10] : ℝ)) < ((10 : ℚ) : ℝ)) :=
  ⟨(c8_trend_anomaly [((0 : ℚ), (0 : ℚ)), (1, 1), (2, 4)] [] 0).1
      (by norm_num [lsqDenom, ptsLen, sumXX, sumX]),
   (c8_trend_anomaly [] [(1 : ℚ), 1, 1, 10] 10).2.2.2.2 (by decide)⟩
